import Mathlib

/-!
QEC proforma filler (`main.go`): shallow embedding and verified properties.

The Go program logs into a web-forms portal and fills three proformas.  The
embedding below follows `main.go` statement by statement for everything that
decides what is sent to the server:

* `getHiddenFields`, `makeRequest`, `prompt` and `main` are the functions of the
  same name in the source; the loops inside `main` are given names
  (`loginLoop`, `captureLoop`, `subjectLoop`, `teacherLoop`, `onlineLoop`).
* The network (`client.Do`) and the operator (`os.Stdin`) are the environment:
  a `World` answers every request as a function of the whole exchange history,
  and the operator is the list of entries typed at the successive prompts.
* Go maps are association lists with unique keys (`GoMap`); the order in which
  `range` walks a map is chosen by the `World`.
* `strings.ToLower`, `strings.ToUpper` and `strings.TrimSpace` belong to the Go
  standard library and are parameters (`Strings`); `ascii` is a concrete
  instance used for evaluation.
* Terminal rendering (banner, tables, colours) has no effect on the requests
  and is left out.
* The two unbounded loops (login retry, grade re-prompt) take a fuel argument.
-/

namespace QEC

/-! ## Strings -/

/-- The three functions of Go's `strings` package whose definition is not part of the repository. -/
structure Strings where
  ToLower : String → String
  ToUpper : String → String
  TrimSpace : String → String

/-- Substring test on character lists (`strings.Contains` on the underlying sequences). -/
def hasInfix : List Char → List Char → Bool
  | [], sub => sub.isEmpty
  | c :: t, sub => sub.isPrefixOf (c :: t) || hasInfix t sub

/-- Go `strings.Contains(s, substr)`. -/
def Contains (s substr : String) : Bool := hasInfix s.data substr.data

def lowerChar (c : Char) : Char :=
  if 65 ≤ c.toNat ∧ c.toNat ≤ 90 then Char.ofNat (c.toNat + 32) else c

def upperChar (c : Char) : Char :=
  if 97 ≤ c.toNat ∧ c.toNat ≤ 122 then Char.ofNat (c.toNat - 32) else c

def isSpace (c : Char) : Bool :=
  c = ' ' || c = '\t' || c = '\n' || c = '\r' || c.toNat = 11 || c.toNat = 12

def trimLeft : List Char → List Char
  | [] => []
  | c :: t => if isSpace c then trimLeft t else c :: t

/-- The `strings` functions restricted to ASCII letters and ASCII white space. -/
def ascii : Strings where
  ToLower := fun s => ⟨s.data.map lowerChar⟩
  ToUpper := fun s => ⟨s.data.map upperChar⟩
  TrimSpace := fun s => ⟨(trimLeft (trimLeft s.data).reverse).reverse⟩

/-! ## Go maps and `url.Values` -/

/-- A Go `map[string]string` (also `url.Values`, where every key holds one value):
an association list in which every key occurs at most once. -/
abbrev GoMap := List (String × String)

/-- Go `v, ok := m[k]`. -/
def GoMap.get? : GoMap → String → Option String
  | [], _ => none
  | (k', v) :: rest, k => if k' = k then some v else GoMap.get? rest k

/-- Go `m[k] = v` (and `url.Values.Set`). -/
def GoMap.Set : GoMap → String → String → GoMap
  | [], k, v => [(k, v)]
  | (k', v') :: rest, k, v => if k' = k then (k, v) :: rest else (k', v') :: GoMap.Set rest k v

/-! ## Parsed pages -/

/-- An `input` element: its `name` and its `value` attribute when it has one. -/
structure InputEl where
  name : String
  value : Option String
deriving DecidableEq, Repr

/-- An `option` element: its `value` attribute when it has one, and its text. -/
structure OptionEl where
  value : Option String
  text : String
deriving DecidableEq, Repr

/-- A `select` element with the `option` elements below it, in document order. -/
structure SelectEl where
  name : String
  options : List OptionEl
deriving DecidableEq, Repr

/-- An element carrying an `id` attribute, with its text. -/
structure IdEl where
  id : String
  text : String
deriving DecidableEq, Repr

/-- What the selectors used in `main.go` can see of a parsed page (`*goquery.Document`);
every list is in document order. -/
structure Document where
  inputs : List InputEl
  selects : List SelectEl
  ids : List IdEl
deriving DecidableEq, Repr

/-- A server response: the raw body and the page parsed from it. -/
structure Response where
  body : String
  doc : Document
deriving DecidableEq, Repr

/-- Go `doc.Find("input[name='N']").Attr("value")` with the existence flag dropped, as every
caller in `main.go` does: the attribute of the first match, `""` when there is none. -/
def Document.inputValue (doc : Document) (name : String) : String :=
  match doc.inputs.find? (fun e => e.name = name) with
  | some e => e.value.getD ""
  | none => ""

/-- Go `doc.Find("select[name='N'] option")`: the options under the selects named `N`. -/
def Document.findOptions (doc : Document) (name : String) : List OptionEl :=
  (doc.selects.filter (fun s => s.name = name)).flatMap (fun s => s.options)

/-- Go `doc.Find("[id*='frag']")`: the elements whose id contains `frag`. -/
def Document.findIdContains (doc : Document) (frag : String) : List IdEl :=
  doc.ids.filter (fun e => Contains e.id frag)

/-- Go `Selection.Each`: run the callback on every element with its index, in order. -/
def Each {α σ : Type} (f : Nat → α → σ → σ) : List α → Nat → σ → σ
  | [], _, acc => acc
  | x :: xs, i, acc => Each f xs (i + 1) (f i x acc)

/-! ## Configuration -/

def LoginURL : String := "https://portals.au.edu.pk/qec/login.aspx"
def BaseURL : String := "https://portals.au.edu.pk/qec/"
def FirstPerformaURL : String := BaseURL ++ "p1.aspx"
def TeacherEvaluationURL : String := BaseURL ++ "p10.aspx"
def OnlineLearningFeedbackURL : String := BaseURL ++ "p10a_learning_online_form.aspx"
def UserAgent : String :=
  "Mozilla/5.0 (Windows NT 10.0; Win64; x64) AppleWebKit/537.36 (KHTML, like Gecko) Chrome/120.0.0.0 Safari/537.36"

/-! ## HTTP client -/

structure HiddenFields where
  ViewState : String
  EventValidation : String
  ViewStateGenerator : String
deriving DecidableEq, Repr

/-- A request as handed to `client.Do`: the body of a POST is the form it encodes. -/
structure Request where
  method : String
  url : String
  data : Option GoMap
  header : List (String × String)
deriving DecidableEq, Repr

/-- One round trip: the request and what came back (`none`: `client.Do` returned an error). -/
structure Exchange where
  req : Request
  resp : Option Response
deriving DecidableEq, Repr

/-- The environment of a run. -/
structure World where
  /-- Go `client.Do`: the answer to a request, given all earlier exchanges of the session. -/
  roundTrip : List Exchange → Request → Option Response
  /-- The order in which `range` yields the entries of a map. -/
  rangeOrder : GoMap → List (String × String)

/-- The mutable state of `main`: the exchanges so far, the operator entries not yet read,
and the variable `hf`. -/
structure Session where
  log : List Exchange
  stdin : List String
  hf : HiddenFields
deriving DecidableEq, Repr

/-- The request `makeRequest` builds in its POST branch. -/
def Request.post (urlStr : String) (data : GoMap) : Request :=
  ⟨"POST", urlStr, some data,
    [("Content-Type", "application/x-www-form-urlencoded"), ("User-Agent", UserAgent),
     ("Referer", LoginURL)]⟩

/-- The request `makeRequest` builds in its GET branch. -/
def Request.get (urlStr : String) : Request :=
  ⟨"GET", urlStr, none, [("User-Agent", UserAgent), ("Referer", LoginURL)]⟩

def makeRequest (w : World) (s : Session) (method urlStr : String) (data : Option GoMap) :
    Option Response × Session :=
  let req : Request :=
    match data with
    | some d => if method = "POST" then Request.post urlStr d else Request.get urlStr
    | none => Request.get urlStr
  let resp := w.roundTrip s.log req
  (resp, { s with log := s.log ++ [⟨req, resp⟩] })

def getHiddenFields (doc : Document) : HiddenFields :=
  let vs := doc.inputValue "__VIEWSTATE"
  let ev := doc.inputValue "__EVENTVALIDATION"
  let vsg := doc.inputValue "__VIEWSTATEGENERATOR"
  ⟨vs, ev, vsg⟩

/-! ## Operator input -/

/-- An operator entry is what was typed at one prompt; at end of input a read yields `""`.
A password entry is returned as typed, any other entry goes through `TrimSpace`. -/
def prompt (L : Strings) (s : Session) (isPassword : Bool) : String × Session :=
  let text := s.stdin.headD ""
  (if isPassword then text else L.TrimSpace text, { s with stdin := s.stdin.tail })

/-! ## The workflow (`main`) -/

structure Teacher where
  Value : String
  Name : String
  Course : String
  Grade : String
deriving DecidableEq, Repr

/-- Why a run stops before the end of `main`: a nil response is dereferenced (the error of
`makeRequest` is discarded after login), or the fuel of an unbounded loop is used up. -/
inductive Halt where
  | panic
  | outOfFuel
deriving DecidableEq, Repr

/-- The option scan written four times in `main`:
`doc.Find("select[name='N'] option").Each(func(i, s) { if i > 0 { list = append(list, ...) } })`. -/
def scanOptions (L : Strings) (mk : String → String → Teacher) (doc : Document) (name : String) :
    List Teacher :=
  Each (fun i (o : OptionEl) (list : List Teacher) =>
      if i > 0 then list ++ [mk (o.value.getD "") (L.TrimSpace o.text)] else list)
    (doc.findOptions name) 0 []

/-- The instructor scan before grade capture (placeholders for course and grade). -/
def scanTeacherList (L : Strings) (doc : Document) : List Teacher :=
  scanOptions L (fun val name => ⟨val, name, "...", "-"⟩) doc "ctl00$ContentPlaceHolder2$ddlTeacher"

/-- The subject scan of proforma 1. -/
def scanSubjects (L : Strings) (doc : Document) : List Teacher :=
  scanOptions L (fun val name => ⟨val, name, "", ""⟩) doc "ctl00$ContentPlaceHolder2$cmb_courses"

/-- The instructor scan of proforma 10. -/
def scanSubmissionTeachers (L : Strings) (doc : Document) : List Teacher :=
  scanOptions L (fun val name => ⟨val, name, "", ""⟩) doc "ctl00$ContentPlaceHolder2$ddlTeacher"

/-- The subject scan of proforma 10a. -/
def scanOnlineSubjects (L : Strings) (doc : Document) : List Teacher :=
  scanOptions L (fun val name => ⟨val, name, "", ""⟩) doc "ctl00$ContentPlaceHolder1$cmb_courses"

/-- Go `for i := 1; i <= n; i++ { data.Set(fmt.Sprintf(pre + "q%d", i), grade) }`. -/
def setQuestions (pre : String) (n : Nat) (grade : String) (data : GoMap) : GoMap :=
  (List.range n).foldl (fun d i => d.Set (pre ++ "q" ++ toString (i + 1)) grade) data

/-- The form of the login POST. -/
def loginData (hf : HiddenFields) (username password : String) : GoMap :=
  let data : GoMap := []
  let data := data.Set "ctl00$ContentPlaceHolder2$ddlcampus" "Islamabad"
  let data := data.Set "ctl00$ContentPlaceHolder2$ddlUserType" "Student/Alumni"
  let data := data.Set "ctl00$ContentPlaceHolder2$txt_regid" username
  let data := data.Set "ctl00$ContentPlaceHolder2$txt_password" password
  let data := data.Set "ctl00$ContentPlaceHolder2$btnAccountlogin" "Login"
  let data := data.Set "__VIEWSTATE" hf.ViewState
  let data := data.Set "__EVENTVALIDATION" hf.EventValidation
  let data := data.Set "__VIEWSTATEGENERATOR" hf.ViewStateGenerator
  data

/-- The form of a dropdown change event (`__EVENTTARGET` names the control). -/
def revealData (control : String) (hf : HiddenFields) (value : String) : GoMap :=
  let data : GoMap := []
  let data := data.Set "__EVENTTARGET" control
  let data := data.Set "__VIEWSTATE" hf.ViewState
  let data := data.Set "__VIEWSTATEGENERATOR" hf.ViewStateGenerator
  let data := data.Set "__EVENTVALIDATION" hf.EventValidation
  let data := data.Set control value
  data

/-- The form posted for one subject of proforma 1. -/
def subjectData (hf : HiddenFields) (value grade : String) : GoMap :=
  let data := revealData "ctl00$ContentPlaceHolder2$cmb_courses" hf value
  let data := setQuestions "ctl00$ContentPlaceHolder2$" 12 grade data
  let data := data.Set "ctl00$ContentPlaceHolder2$btnSave" "Submit Proforma"
  data

/-- The submission form for one instructor of proforma 10. -/
def teacherFormData (hf : HiddenFields) (value grade : String) : GoMap :=
  let formData : GoMap := []
  let formData := formData.Set "__VIEWSTATE" hf.ViewState
  let formData := formData.Set "__VIEWSTATEGENERATOR" hf.ViewStateGenerator
  let formData := formData.Set "__EVENTVALIDATION" hf.EventValidation
  let formData := formData.Set "ctl00$ContentPlaceHolder2$ddlTeacher" value
  let formData := setQuestions "ctl00$ContentPlaceHolder2$" 16 grade formData
  let formData := formData.Set "ctl00$ContentPlaceHolder2$q20" "Good instructor"
  let formData := formData.Set "ctl00$ContentPlaceHolder2$q21" "Good course"
  let formData := formData.Set "ctl00$ContentPlaceHolder2$btnSave" "Save Proforma Proforma"
  formData

/-- The submission form for one subject of proforma 10a. -/
def onlineFormData (hf : HiddenFields) (value grade : String) : GoMap :=
  let formData : GoMap := []
  let formData := formData.Set "__VIEWSTATE" hf.ViewState
  let formData := formData.Set "__VIEWSTATEGENERATOR" hf.ViewStateGenerator
  let formData := formData.Set "__EVENTVALIDATION" hf.EventValidation
  let formData := formData.Set "ctl00$ContentPlaceHolder1$cmb_courses" value
  let formData := setQuestions "ctl00$ContentPlaceHolder1$" 16 grade formData
  let formData := formData.Set "ctl00$ContentPlaceHolder1$q20" "Good online learning experience"
  let formData := formData.Set "ctl00$ContentPlaceHolder1$btnSave" "Submit Proforma"
  formData

/-- The closure `success := func() bool { ... }()` of the login loop. -/
def loginAttempt (w : World) (L : Strings) (username password : String) (s : Session) :
    Bool × Session :=
  match makeRequest w s "GET" LoginURL none with
  | (none, s) => (false, s)
  | (some resp, s) =>
    let s := { s with hf := getHiddenFields resp.doc }
    if s.hf.ViewState = "" then (false, s)
    else
      match makeRequest w s "POST" LoginURL (some (loginData s.hf username password)) with
      | (none, s) => (false, s)
      | (some loginResp, s) => (Contains (L.ToLower loginResp.body) "logout", s)

/-- Go `for !loginSuccess { ... }`; `false` when the fuel is used up while still logged out. -/
def loginLoop (w : World) (L : Strings) : Nat → Session → Bool × Session
  | 0, s => (false, s)
  | fuel + 1, s =>
    let username := prompt L s false
    let password := prompt L username.2 true
    match loginAttempt w L username.1 password.1 password.2 with
    | (true, s) => (true, s)
    | (false, s) => loginLoop w L fuel s

/-- Go `for !valid { grade = strings.ToUpper(prompt(...)); ... }`. -/
def gradePrompt (L : Strings) : Nat → Session → Option String × Session
  | 0, s => (none, s)
  | fuel + 1, s =>
    let p := prompt L s false
    let grade := L.ToUpper p.1
    if grade = "A" ∨ grade = "B" ∨ grade = "C" ∨ grade = "D" then (some grade, p.2)
    else gradePrompt L fuel p.2

/-- The course scrape: `courseName := "Unknown"`, overwritten by every `lblCourse` element. -/
def scrapeCourse (L : Strings) (doc : Document) : String :=
  Each (fun _ (e : IdEl) (_ : String) => L.TrimSpace e.text) (doc.findIdContains "lblCourse") 0
    "Unknown"

/-- Go `for i, teacher := range teacherList { ... }` of the grade capture.  Returns the
teachers with the `Course` and `Grade` written into them, `customGrades` and
`teacherCourseMap`. -/
def captureLoop (w : World) (L : Strings) (fuel : Nat) :
    List Teacher → GoMap → GoMap → Session → Except Halt (List Teacher × GoMap × GoMap) × Session
  | [], customGrades, teacherCourseMap, s => (.ok ([], customGrades, teacherCourseMap), s)
  | teacher :: rest, customGrades, teacherCourseMap, s =>
    match makeRequest w s "POST" TeacherEvaluationURL
        (some (revealData "ctl00$ContentPlaceHolder2$ddlTeacher" s.hf teacher.Value)) with
    | (none, s) => (.error .panic, s)
    | (some r, s) =>
      let s := { s with hf := getHiddenFields r.doc }
      let courseName := scrapeCourse L r.doc
      match gradePrompt L fuel s with
      | (none, s) => (.error .outOfFuel, s)
      | (some grade, s) =>
        match captureLoop w L fuel rest (customGrades.Set teacher.Value grade)
            (teacherCourseMap.Set teacher.Value courseName) s with
        | (.ok (ts, cg, tcm), s) =>
          (.ok ({ teacher with Course := courseName, Grade := grade } :: ts, cg, tcm), s)
        | (.error h, s) => (.error h, s)

/-- The inner loop of the correlation: `for _, sub := range subjects { if ... { m[sub.Value] = grade } }`. -/
def correlateOne (L : Strings) (cName grade : String) (subjects : List Teacher) (m : GoMap) : GoMap :=
  subjects.foldl (fun m sub =>
    if Contains (L.ToLower sub.Name) (L.ToLower cName) ||
        Contains (L.ToLower cName) (L.ToLower sub.Name) then m.Set sub.Value grade else m) m

/-- The correlation loop `for tVal, grade := range customGrades { ... }`; `traversal` is the
sequence of entries `range` yields. -/
def correlate (L : Strings) (traversal : List (String × String)) (teacherCourseMap : GoMap)
    (subjects : List Teacher) : GoMap :=
  traversal.foldl (fun m e =>
    match teacherCourseMap.get? e.1 with
    | some cName => correlateOne L cName e.2 subjects m
    | none => m) []

/-- Go `for _, sub := range subjects { ... }` of proforma 1. -/
def subjectLoop (w : World) (subjectGradeMap : GoMap) : List Teacher → Session → Except Halt Unit × Session
  | [], s => (.ok (), s)
  | sub :: rest, s =>
    let grade := (subjectGradeMap.get? sub.Value).getD "A"
    match makeRequest w s "POST" FirstPerformaURL (some (subjectData s.hf sub.Value grade)) with
    | (none, s) => (.error .panic, s)
    | (some r, s) => subjectLoop w subjectGradeMap rest { s with hf := getHiddenFields r.doc }

/-- Go `for _, t := range submissionTeachers { ... }` of proforma 10. -/
def teacherLoop (w : World) (customGrades : GoMap) : List Teacher → Session → Except Halt Unit × Session
  | [], s => (.ok (), s)
  | t :: rest, s =>
    match makeRequest w s "POST" TeacherEvaluationURL
        (some (revealData "ctl00$ContentPlaceHolder2$ddlTeacher" s.hf t.Value)) with
    | (none, s) => (.error .panic, s)
    | (some r, s) =>
      let s := { s with hf := getHiddenFields r.doc }
      let grade := (customGrades.get? t.Value).getD "A"
      match makeRequest w s "POST" TeacherEvaluationURL (some (teacherFormData s.hf t.Value grade)) with
      | (none, s) => (.error .panic, s)
      | (some _, s) => teacherLoop w customGrades rest s

/-- Go `for _, sub := range onlineSubjects { ... }` of proforma 10a. -/
def onlineLoop (w : World) (subjectGradeMap : GoMap) : List Teacher → Session → Except Halt Unit × Session
  | [], s => (.ok (), s)
  | sub :: rest, s =>
    match makeRequest w s "POST" OnlineLearningFeedbackURL
        (some (revealData "ctl00$ContentPlaceHolder1$cmb_courses" s.hf sub.Value)) with
    | (none, s) => (.error .panic, s)
    | (some r, s) =>
      let s := { s with hf := getHiddenFields r.doc }
      let grade := (subjectGradeMap.get? sub.Value).getD "A"
      match makeRequest w s "POST" OnlineLearningFeedbackURL (some (onlineFormData s.hf sub.Value grade)) with
      | (none, s) => (.error .panic, s)
      | (some _, s) => onlineLoop w subjectGradeMap rest s

/-- Section "TEACHER EVALUATION SETUP" of `main`: fetch proforma 10, scan the instructors,
ask for custom grades and capture them.  Returns `customGrades` and `teacherCourseMap`. -/
def stageA (w : World) (L : Strings) (fuel : Nat) (s : Session) : Except Halt (GoMap × GoMap) × Session :=
  match makeRequest w s "GET" TeacherEvaluationURL none with
  | (none, s) => (.error .panic, s)
  | (some resp, s) =>
    let s := { s with hf := getHiddenFields resp.doc }
    let teacherList := scanTeacherList L resp.doc
    let choice := prompt L s false
    if L.ToLower choice.1 = "y" then
      match captureLoop w L fuel teacherList [] [] choice.2 with
      | (.ok (_, customGrades, teacherCourseMap), s) => (.ok (customGrades, teacherCourseMap), s)
      | (.error h, s) => (.error h, s)
    else (.ok ([], []), choice.2)

/-- Section "1. FILLING PROFORMA 1 (Subjects)" of `main`.  Returns `subjectGradeMap`. -/
def stageB (w : World) (L : Strings) (customGrades teacherCourseMap : GoMap) (s : Session) :
    Except Halt GoMap × Session :=
  match makeRequest w s "GET" FirstPerformaURL none with
  | (none, s) => (.error .panic, s)
  | (some resp, s) =>
    let s := { s with hf := getHiddenFields resp.doc }
    let subjects := scanSubjects L resp.doc
    let subjectGradeMap := correlate L (w.rangeOrder customGrades) teacherCourseMap subjects
    if subjects.length = 0 then (.ok subjectGradeMap, s)
    else
      match subjectLoop w subjectGradeMap subjects s with
      | (.ok _, s) => (.ok subjectGradeMap, s)
      | (.error h, s) => (.error h, s)

/-- Section "2. FILLING PROFORMA 10 (Teachers)" of `main`. -/
def stageC (w : World) (L : Strings) (customGrades : GoMap) (s : Session) : Except Halt Unit × Session :=
  match makeRequest w s "GET" TeacherEvaluationURL none with
  | (none, s) => (.error .panic, s)
  | (some resp, s) =>
    let s := { s with hf := getHiddenFields resp.doc }
    let submissionTeachers := scanSubmissionTeachers L resp.doc
    if submissionTeachers.length = 0 then (.ok (), s)
    else teacherLoop w customGrades submissionTeachers s

/-- Section "3. FILLING PROFORMA 10a (Online Learning)" of `main`. -/
def stageD (w : World) (L : Strings) (subjectGradeMap : GoMap) (s : Session) : Except Halt Unit × Session :=
  match makeRequest w s "GET" OnlineLearningFeedbackURL none with
  | (none, s) => (.error .panic, s)
  | (some resp, s) =>
    let s := { s with hf := getHiddenFields resp.doc }
    let onlineSubjects := scanOnlineSubjects L resp.doc
    if onlineSubjects.length = 0 then (.ok (), s)
    else onlineLoop w subjectGradeMap onlineSubjects s

/-- Everything `main` does once the login loop is left. -/
def proformas (w : World) (L : Strings) (fuel : Nat) (s : Session) : Except Halt Unit × Session :=
  match stageA w L fuel s with
  | (.error h, s) => (.error h, s)
  | (.ok (customGrades, teacherCourseMap), s) =>
    match stageB w L customGrades teacherCourseMap s with
    | (.error h, s) => (.error h, s)
    | (.ok subjectGradeMap, s) =>
      match stageC w L customGrades s with
      | (.error h, s) => (.error h, s)
      | (.ok _, s) =>
        match stageD w L subjectGradeMap s with
        | (.error h, s) => (.error h, s)
        | (.ok _, s) => (.ok (), { s with stdin := s.stdin.tail })

/-- The state in which `main` starts: nothing sent, `hf` zero-valued. -/
def Session.init (stdin : List String) : Session := ⟨[], stdin, ⟨"", "", ""⟩⟩

def main (w : World) (L : Strings) (fuel : Nat) (stdin : List String) : Except Halt Unit × Session :=
  match loginLoop w L fuel (Session.init stdin) with
  | (false, s) => (.error .outOfFuel, s)
  | (true, s) => proformas w L fuel s

/-! ## Vocabulary of the properties -/

/-- What is asked of a scanned list, given the option elements under the control: the
(value, trimmed label) pairs without the first, hence one entry less, none when nothing matches. -/
def ScanSpec (L : Strings) (scanned : List Teacher) (options : List OptionEl) : Prop :=
  scanned.map (fun t => (t.Value, t.Name)) =
      (options.map (fun o => (o.value.getD "", L.TrimSpace o.text))).tail ∧
    scanned.length = options.length - 1 ∧
    (options = [] → scanned = [])

/-- The page has an input named `name`, and every such input carries the value `v`. -/
def Document.Holds (doc : Document) (name v : String) : Prop :=
  (∃ e ∈ doc.inputs, e.name = name) ∧ ∀ e ∈ doc.inputs, e.name = name → e.value = some v

/-- The page has no input named `name`. -/
def Document.Lacks (doc : Document) (name : String) : Prop :=
  ∀ e ∈ doc.inputs, e.name ≠ name

/-- A page with a state token and nothing else. -/
def pageViewStateOnly : Document := ⟨[⟨"__VIEWSTATE", some "S"⟩], [], []⟩

/-- The test of the correlation loop: one lower-cased label contains the other. -/
def overlaps (L : Strings) (cName subName : String) : Bool :=
  Contains (L.ToLower subName) (L.ToLower cName) || Contains (L.ToLower cName) (L.ToLower subName)

/-- The entry `e` of the rating map has a course label that overlaps the label of some
subject whose value is `v`. -/
def matchesValue (L : Strings) (teacherCourseMap : GoMap) (subjects : List Teacher)
    (e : String × String) (v : String) : Bool :=
  match teacherCourseMap.get? e.1 with
  | some cName => subjects.any (fun sub => sub.Value = v && overlaps L cName sub.Name)
  | none => false

/-- Two subjects sharing one value, only the first overlapping the course label "Math". -/
def subjectsSharedValue : List Teacher := [⟨"v", "Math", "", ""⟩, ⟨"v", "Physics", "", ""⟩]

/-- One subject whose label overlaps the course label of two instructors. -/
def subjectsDataLab : List Teacher := [⟨"s1", "Data Structures Lab", "", ""⟩]

/-- Two instructors with different ratings. -/
def ratingsTwo : GoMap := [("t1", "B"), ("t2", "C")]

/-- Both instructors teach a course whose label overlaps "Data Structures Lab". -/
def coursesTwo : GoMap := [("t1", "Data Structures"), ("t2", "Data")]

/-- Two instructors with the same rating. -/
def ratingsSame : GoMap := [("t1", "B"), ("t2", "B")]

/-- The three hidden inputs of a page served as the `n`-th response of a session. -/
def tokens (n : Nat) : List InputEl :=
  [⟨"__VIEWSTATE", some ("vs" ++ toString n)⟩, ⟨"__EVENTVALIDATION", some ("ev" ++ toString n)⟩,
   ⟨"__VIEWSTATEGENERATOR", some ("g" ++ toString n)⟩]

/-- A sample portal.  Every response carries fresh tokens; the login succeeds with the
password "secret"; proforma 10 lists two instructors, proforma 1 one subject, proforma 10a
two subjects; maps are walked in insertion order. -/
def portal : World where
  roundTrip := fun log req =>
    let fresh := tokens log.length
    if req.url = LoginURL then
      if req.method = "GET" then some ⟨"<form>login</form>", ⟨fresh, [], []⟩⟩
      else if (req.data.getD []).get? "ctl00$ContentPlaceHolder2$txt_password" = some "secret" then
        some ⟨"<a href=x>Logout</a>", ⟨fresh, [], []⟩⟩
      else some ⟨"<span>Invalid</span>", ⟨fresh, [], []⟩⟩
    else if req.url = TeacherEvaluationURL then
      some ⟨"", ⟨fresh,
        [⟨"ctl00$ContentPlaceHolder2$ddlTeacher",
          [⟨some "0", "-- Select --"⟩, ⟨some "t1", " Dr. Ali "⟩, ⟨some "t2", "Dr. Bo"⟩]⟩],
        [⟨"ctl00_ContentPlaceHolder2_lblCourse",
          if (req.data.getD []).get? "ctl00$ContentPlaceHolder2$ddlTeacher" = some "t2" then "Algebra"
          else "Data Structures"⟩]⟩⟩
    else if req.url = FirstPerformaURL then
      some ⟨"", ⟨fresh,
        [⟨"ctl00$ContentPlaceHolder2$cmb_courses",
          [⟨some "0", "-- Select --"⟩, ⟨some "s1", "Data Structures Lab"⟩]⟩], []⟩⟩
    else
      some ⟨"", ⟨fresh,
        [⟨"ctl00$ContentPlaceHolder1$cmb_courses",
          [⟨some "0", "-- Select --"⟩, ⟨some "s1", "Data Structures Lab"⟩,
           ⟨some "o2", "Algebra online"⟩]⟩], []⟩⟩
  rangeOrder := fun m => m

/-- The state of `main` after one login attempt that got both responses. -/
def afterLoginAttempt (L : Strings) (s : Session) (page resp : Response) : Session :=
  ⟨s.log ++
      [⟨Request.get LoginURL, some page⟩,
       ⟨Request.post LoginURL (loginData (getHiddenFields page.doc) (L.TrimSpace (s.stdin.headD ""))
          (s.stdin.tail.headD "")), some resp⟩],
    s.stdin.tail.tail, getHiddenFields page.doc⟩

/-- The operator of the sample runs: id, password, then the answer to the custom-grade question. -/
def operatorDeclines : List String := ["19-123", "secret", "n"]

/-- The login page the sample portal serves first. -/
def portalLoginPage : Response := ⟨"<form>login</form>", ⟨tokens 0, [], []⟩⟩

/-- The answer of the sample portal to the right password. -/
def portalWelcome : Response := ⟨"<a href=x>Logout</a>", ⟨tokens 1, [], []⟩⟩

/-- The hidden-field values a request carries in its form, if it has a form. -/
def carriedTokens (r : Request) : Option HiddenFields :=
  r.data.map (fun d =>
    ⟨(d.get? "__VIEWSTATE").getD "", (d.get? "__EVENTVALIDATION").getD "",
      (d.get? "__VIEWSTATEGENERATOR").getD ""⟩)

/-- The hidden-field values of the page a round trip returned, if it returned one. -/
def returnedTokens (e : Exchange) : Option HiddenFields :=
  e.resp.map (fun r => getHiddenFields r.doc)

/-- The requests of proforma 1 for the subjects `subs`, sent with the tokens `hfs`: one POST
per subject. -/
def subjectRequests (subjectGradeMap : GoMap) (subs : List Teacher) (hfs : List HiddenFields) :
    List Request :=
  (subs.zip hfs).map (fun p =>
    Request.post FirstPerformaURL
      (subjectData p.2 p.1.Value ((subjectGradeMap.get? p.1.Value).getD "A")))

/-- The requests of proforma 10 for the instructors `ts`: per instructor the reveal POST and
then the submission, each with its own tokens. -/
def teacherRequests (customGrades : GoMap) (ts : List Teacher)
    (hfs : List (HiddenFields × HiddenFields)) : List Request :=
  (ts.zip hfs).flatMap (fun p =>
    [Request.post TeacherEvaluationURL
        (revealData "ctl00$ContentPlaceHolder2$ddlTeacher" p.2.1 p.1.Value),
     Request.post TeacherEvaluationURL
        (teacherFormData p.2.2 p.1.Value ((customGrades.get? p.1.Value).getD "A"))])

/-- The requests of proforma 10a for the subjects `subs`: per subject the reveal POST and
then the submission, each with its own tokens. -/
def onlineRequests (subjectGradeMap : GoMap) (subs : List Teacher)
    (hfs : List (HiddenFields × HiddenFields)) : List Request :=
  (subs.zip hfs).flatMap (fun p =>
    [Request.post OnlineLearningFeedbackURL
        (revealData "ctl00$ContentPlaceHolder1$cmb_courses" p.2.1 p.1.Value),
     Request.post OnlineLearningFeedbackURL
        (onlineFormData p.2.2 p.1.Value ((subjectGradeMap.get? p.1.Value).getD "A"))])

deriving instance DecidableEq for Except

/-- The grade recorded for the last captured instructor whose value is `v`. -/
def lastGrade (captured : List Teacher) (v : String) : Option String :=
  (captured.reverse.find? (fun t => t.Value = v)).map (fun t => t.Grade)

/-- The operator of the sample capture run: id, password, "y", then a grade per instructor
(a first invalid entry is re-prompted). -/
def operatorGrades : List String := ["19-123", "secret", "y", "x", "b", " c "]

/-- The operator of the sample run that starts after the login: "y", then the two grades. -/
def operatorAfterLogin : List String := ["y", "b", "c"]

/-- The names of the rated question fields of the three proformas: q1..q16 under either
content placeholder. -/
def ratedKeys : List String :=
  (List.range 16).map (fun i => "ctl00$ContentPlaceHolder2$" ++ "q" ++ toString (i + 1)) ++
    (List.range 16).map (fun i => "ctl00$ContentPlaceHolder1$" ++ "q" ++ toString (i + 1))

/-- Every rated question field the request carries is set to `g`. -/
def AllRated (g : String) (r : Request) : Prop :=
  ∀ kv ∈ r.data.getD [], kv.1 ∈ ratedKeys → kv.2 = g

/-- Every request sent so far satisfies `P`. -/
def LogAll (P : Request → Prop) (s : Session) : Prop :=
  ∀ e ∈ s.log, P e.req

/-- The grade the operator enters at one grade prompt: the first of the remaining entries
that, trimmed and upper-cased, is one of A, B, C, D, together with the entries left after it
(at the end of the input every read yields the empty entry). -/
def enteredGrade (L : Strings) : List String → Option (String × List String)
  | [] =>
    if L.ToUpper (L.TrimSpace "") = "A" ∨ L.ToUpper (L.TrimSpace "") = "B" ∨
        L.ToUpper (L.TrimSpace "") = "C" ∨ L.ToUpper (L.TrimSpace "") = "D" then
      some (L.ToUpper (L.TrimSpace ""), [])
    else none
  | x :: rest =>
    if L.ToUpper (L.TrimSpace x) = "A" ∨ L.ToUpper (L.TrimSpace x) = "B" ∨
        L.ToUpper (L.TrimSpace x) = "C" ∨ L.ToUpper (L.TrimSpace x) = "D" then
      some (L.ToUpper (L.TrimSpace x), rest)
    else enteredGrade L rest

/-- The (instructor value, grade) pairs the operator enters for the instructors in turn,
from the entries that follow the custom-grade answer. -/
def enteredGrades (L : Strings) : List Teacher → List String → Option (List (String × String))
  | [], _ => some []
  | t :: rest, entries =>
    match enteredGrade L entries with
    | none => none
    | some (g, entries') => (enteredGrades L rest entries').map (fun l => (t.Value, g) :: l)

/-- The grade entered for the last instructor of the capture whose value is `v`. -/
def lastEntered (pairs : List (String × String)) (v : String) : Option String :=
  (pairs.reverse.find? (fun p => p.1 = v)).map (fun p => p.2)

/-- The sample portal with a proforma 10 dropdown in which two instructors share the
value "v". -/
def portalSharedValue : World where
  roundTrip := fun log req =>
    if req.url = TeacherEvaluationURL then
      some ⟨"", ⟨tokens log.length,
        [⟨"ctl00$ContentPlaceHolder2$ddlTeacher",
          [⟨some "0", "-- Select --"⟩, ⟨some "v", "Dr. Ali"⟩, ⟨some "v", "Dr. Bo"⟩]⟩],
        [⟨"ctl00_ContentPlaceHolder2_lblCourse", "Data Structures"⟩]⟩⟩
    else portal.roundTrip log req
  rangeOrder := fun m => m

/-- The operator who rates the first instructor "B" and the second "C". -/
def operatorRatesBC : List String := ["19-123", "secret", "y", "b", "c"]

/-! # Theorems -/

/-! ## Option scan -/

theorem Each_scan {α β : Type} (g : α → β) (xs : List α) (i : Nat) (acc : List β) :
    Each (fun i (o : α) (list : List β) => if i > 0 then list ++ [g o] else list) xs i acc =
      acc ++ (if i > 0 then xs.map g else (xs.map g).tail) := by
  induction xs generalizing i acc with
  | nil => simp [Each]
  | cons x xs ih =>
    rw [Each, ih]
    by_cases hi : i > 0 <;> simp [hi]

theorem scanOptions_eq (L : Strings) (mk : String → String → Teacher) (doc : Document)
    (name : String) :
    scanOptions L mk doc name =
      ((doc.findOptions name).map (fun o => mk (o.value.getD "") (L.TrimSpace o.text))).tail := by
  have h := Each_scan (fun o : OptionEl => mk (o.value.getD "") (L.TrimSpace o.text))
    (doc.findOptions name) 0 []
  simpa [scanOptions] using h

theorem scanSpec_of_mk (L : Strings) (mk : String → String → Teacher) (doc : Document)
    (name : String) (hv : ∀ a b, (mk a b).Value = a) (hn : ∀ a b, (mk a b).Name = b) :
    ScanSpec L (scanOptions L mk doc name) (doc.findOptions name) := by
  rw [scanOptions_eq]
  refine ⟨?_, ?_, ?_⟩
  · rw [← List.map_tail, ← List.map_tail, List.map_map]
    apply List.map_congr_left
    intro o _
    simp [hv, hn]
  · simp
  · intro h
    simp [h]

/-- C1: each of the four option scans of `main` (instructors before capture, subjects,
instructors before submission, online-learning subjects) yields the (value, trimmed label)
pairs of the option elements under the control, in document order, without the first one:
`n - 1` entries for `n` options, and the empty list when nothing matches. -/
theorem scan_excludes_first_option (L : Strings) (doc : Document) :
    ScanSpec L (scanTeacherList L doc) (doc.findOptions "ctl00$ContentPlaceHolder2$ddlTeacher") ∧
    ScanSpec L (scanSubjects L doc) (doc.findOptions "ctl00$ContentPlaceHolder2$cmb_courses") ∧
    ScanSpec L (scanSubmissionTeachers L doc)
      (doc.findOptions "ctl00$ContentPlaceHolder2$ddlTeacher") ∧
    ScanSpec L (scanOnlineSubjects L doc)
      (doc.findOptions "ctl00$ContentPlaceHolder1$cmb_courses") :=
  ⟨scanSpec_of_mk L _ doc _ (fun _ _ => rfl) (fun _ _ => rfl),
   scanSpec_of_mk L _ doc _ (fun _ _ => rfl) (fun _ _ => rfl),
   scanSpec_of_mk L _ doc _ (fun _ _ => rfl) (fun _ _ => rfl),
   scanSpec_of_mk L _ doc _ (fun _ _ => rfl) (fun _ _ => rfl)⟩

/-! ## Hidden fields -/

theorem inputValue_of_holds (doc : Document) (name v : String) (h : doc.Holds name v) :
    doc.inputValue name = v := by
  obtain ⟨⟨e, he, hn⟩, hall⟩ := h
  unfold Document.inputValue
  cases hf : doc.inputs.find? (fun e => e.name = name) with
  | none =>
    have := List.find?_eq_none.mp hf e he
    simp [hn] at this
  | some e' =>
    have hm := List.mem_of_find?_eq_some hf
    have hp := List.find?_some hf
    have hn' : e'.name = name := by simpa using hp
    simp [hall e' hm hn']

theorem inputValue_of_lacks (doc : Document) (name : String) (h : doc.Lacks name) :
    doc.inputValue name = "" := by
  unfold Document.inputValue
  cases hf : doc.inputs.find? (fun e => e.name = name) with
  | none => rfl
  | some e' =>
    have hm := List.mem_of_find?_eq_some hf
    have hp := List.find?_some hf
    have hn' : e'.name = name := by simpa using hp
    exact absurd hn' (h e' hm)

/-- C4 (as stated, refuted): a page that has the state token but neither of the other two
inputs makes `getHiddenFields` return a partly filled `HiddenFields`, not an absent one. -/
theorem getHiddenFields_partial_on_missing_inputs :
    pageViewStateOnly.Lacks "__EVENTVALIDATION" ∧
      pageViewStateOnly.Lacks "__VIEWSTATEGENERATOR" ∧
      getHiddenFields pageViewStateOnly = ⟨"S", "", ""⟩ ∧
      getHiddenFields pageViewStateOnly ≠ ⟨"", "", ""⟩ := by
  refine ⟨?_, ?_, ?_, ?_⟩
  · intro e he
    simp [pageViewStateOnly] at he
    subst he
    decide
  · intro e he
    simp [pageViewStateOnly] at he
    subst he
    decide
  · decide
  · decide

/-- C4 (amended): on a page holding all three hidden inputs `getHiddenFields` returns exactly
their three values; in general each field is filled on its own: with the page's value when
the input is there, with the empty string when it is missing. -/
theorem getHiddenFields_fieldwise (doc : Document) :
    (∀ vs ev vsg, doc.Holds "__VIEWSTATE" vs → doc.Holds "__EVENTVALIDATION" ev →
        doc.Holds "__VIEWSTATEGENERATOR" vsg → getHiddenFields doc = ⟨vs, ev, vsg⟩) ∧
    (∀ vs, doc.Holds "__VIEWSTATE" vs → (getHiddenFields doc).ViewState = vs) ∧
    (∀ ev, doc.Holds "__EVENTVALIDATION" ev → (getHiddenFields doc).EventValidation = ev) ∧
    (∀ vsg, doc.Holds "__VIEWSTATEGENERATOR" vsg →
        (getHiddenFields doc).ViewStateGenerator = vsg) ∧
    (doc.Lacks "__VIEWSTATE" → (getHiddenFields doc).ViewState = "") ∧
    (doc.Lacks "__EVENTVALIDATION" → (getHiddenFields doc).EventValidation = "") ∧
    (doc.Lacks "__VIEWSTATEGENERATOR" → (getHiddenFields doc).ViewStateGenerator = "") := by
  refine ⟨?_, ?_, ?_, ?_, ?_, ?_, ?_⟩
  · intro vs ev vsg h1 h2 h3
    simp [getHiddenFields, inputValue_of_holds _ _ _ h1, inputValue_of_holds _ _ _ h2,
      inputValue_of_holds _ _ _ h3]
  · intro v h
    simp [getHiddenFields, inputValue_of_holds _ _ _ h]
  · intro v h
    simp [getHiddenFields, inputValue_of_holds _ _ _ h]
  · intro v h
    simp [getHiddenFields, inputValue_of_holds _ _ _ h]
  · intro h
    simp [getHiddenFields, inputValue_of_lacks _ _ h]
  · intro h
    simp [getHiddenFields, inputValue_of_lacks _ _ h]
  · intro h
    simp [getHiddenFields, inputValue_of_lacks _ _ h]

theorem holds_pageViewStateOnly : pageViewStateOnly.Holds "__VIEWSTATE" "S" := by
  refine ⟨⟨⟨"__VIEWSTATE", some "S"⟩, by simp [pageViewStateOnly], rfl⟩, ?_⟩
  intro e he _
  simp [pageViewStateOnly] at he
  subst he
  rfl

theorem lacks_pageViewStateOnly : pageViewStateOnly.Lacks "__EVENTVALIDATION" := by
  intro e he
  simp [pageViewStateOnly] at he
  subst he
  decide

/-- Witness of `getHiddenFields_fieldwise` on the page with a state token only. -/
theorem getHiddenFields_fieldwise_witness :
    (getHiddenFields pageViewStateOnly).ViewState = "S" ∧
      (getHiddenFields pageViewStateOnly).EventValidation = "" :=
  ⟨(getHiddenFields_fieldwise pageViewStateOnly).2.1 "S" holds_pageViewStateOnly,
   (getHiddenFields_fieldwise pageViewStateOnly).2.2.2.2.2.1 lacks_pageViewStateOnly⟩

/-! ## Go maps -/

theorem GoMap.get?_Set (m : GoMap) (k v k' : String) :
    (m.Set k v).get? k' = if k = k' then some v else m.get? k' := by
  induction m with
  | nil => simp [GoMap.Set, GoMap.get?]
  | cons p rest ih =>
    obtain ⟨a, b⟩ := p
    by_cases h : a = k
    · subst h
      by_cases h' : a = k' <;> simp [GoMap.Set, GoMap.get?, h']
    · by_cases h' : a = k'
      · subst h'
        have : ¬ k = a := fun e => h e.symm
        simp [GoMap.Set, GoMap.get?, h, this]
      · simp [GoMap.Set, GoMap.get?, h, h', ih]

/-! ## Correlation -/

theorem correlateOne_get? (L : Strings) (cName grade : String) (subjects : List Teacher)
    (m : GoMap) (v : String) :
    (correlateOne L cName grade subjects m).get? v =
      if subjects.any (fun sub => sub.Value = v && overlaps L cName sub.Name) then some grade
      else m.get? v := by
  unfold correlateOne
  induction subjects generalizing m with
  | nil => simp
  | cons sub rest ih =>
    rw [List.foldl_cons, ih]
    by_cases ho : overlaps L cName sub.Name = true
    · have ho' : (Contains (L.ToLower sub.Name) (L.ToLower cName) ||
          Contains (L.ToLower cName) (L.ToLower sub.Name)) = true := ho
      by_cases hv : sub.Value = v
      · simp [ho, ho', hv, GoMap.get?_Set]
      · by_cases hr : rest.any (fun sub => sub.Value = v && overlaps L cName sub.Name) = true
        · simp [hr]
        · simp [ho', hv, hr, GoMap.get?_Set]
    · have ho' : ¬ (Contains (L.ToLower sub.Name) (L.ToLower cName) ||
          Contains (L.ToLower cName) (L.ToLower sub.Name)) = true := ho
      simp [ho, ho']

/-- One pass of the outer correlation loop, seen through a lookup. -/
theorem correlate_step_get? (L : Strings) (teacherCourseMap : GoMap) (subjects : List Teacher)
    (m : GoMap) (e : String × String) (v : String) :
    (match teacherCourseMap.get? e.1 with
      | some cName => correlateOne L cName e.2 subjects m
      | none => m).get? v =
      if matchesValue L teacherCourseMap subjects e v then some e.2 else m.get? v := by
  unfold matchesValue
  cases teacherCourseMap.get? e.1 with
  | none => simp
  | some c => simp [correlateOne_get?]

theorem correlate_foldl_get? (L : Strings) (teacherCourseMap : GoMap) (subjects : List Teacher)
    (traversal : List (String × String)) (m : GoMap) (v : String) :
    (traversal.foldl (fun m e =>
        match teacherCourseMap.get? e.1 with
        | some cName => correlateOne L cName e.2 subjects m
        | none => m) m).get? v =
      match traversal.reverse.find? (fun e => matchesValue L teacherCourseMap subjects e v) with
      | some e => some e.2
      | none => m.get? v := by
  induction traversal generalizing m with
  | nil => simp
  | cons e rest ih =>
    rw [List.foldl_cons, ih, List.reverse_cons, List.find?_append]
    cases hr : rest.reverse.find? (fun e => matchesValue L teacherCourseMap subjects e v) with
    | some e' => simp
    | none =>
      rw [correlate_step_get?]
      by_cases hm : matchesValue L teacherCourseMap subjects e v = true
      · simp [hm]
      · simp [hm]

/-- The correlation result, read at a value: the rating of the last entry of the traversal
that matches the value. -/
theorem correlate_get? (L : Strings) (traversal : List (String × String))
    (teacherCourseMap : GoMap) (subjects : List Teacher) (v : String) :
    (correlate L traversal teacherCourseMap subjects).get? v =
      (traversal.reverse.find? (fun e => matchesValue L teacherCourseMap subjects e v)).map
        (fun e => e.2) := by
  unfold correlate
  rw [correlate_foldl_get?]
  cases traversal.reverse.find? (fun e => matchesValue L teacherCourseMap subjects e v) <;>
    simp [GoMap.get?]

theorem matchesValue_iff (L : Strings) (teacherCourseMap : GoMap) (subjects : List Teacher)
    (e : String × String) (v : String) :
    matchesValue L teacherCourseMap subjects e v = true ↔
      ∃ cName, teacherCourseMap.get? e.1 = some cName ∧
        ∃ sub ∈ subjects, sub.Value = v ∧
          (Contains (L.ToLower cName) (L.ToLower sub.Name) = true ∨
            Contains (L.ToLower sub.Name) (L.ToLower cName) = true) := by
  unfold matchesValue
  cases teacherCourseMap.get? e.1 with
  | none => simp
  | some c =>
    simp only [List.any_eq_true, Bool.and_eq_true, decide_eq_true_eq, overlaps, Bool.or_eq_true,
      Option.some.injEq, exists_eq_left']
    constructor
    · rintro ⟨sub, hs, hv, ho⟩
      exact ⟨sub, hs, hv, ho.symm⟩
    · rintro ⟨sub, hs, hv, ho⟩
      exact ⟨sub, hs, hv, ho.symm⟩

/-- The correlation result has an entry at `v` exactly when some traversed entry matches `v`,
and the entry is the rating of a matching traversed entry. -/
theorem correlate_entry (L : Strings) (traversal : List (String × String))
    (teacherCourseMap : GoMap) (subjects : List Teacher) (v : String) :
    (((correlate L traversal teacherCourseMap subjects).get? v).isSome = true ↔
        ∃ e ∈ traversal, matchesValue L teacherCourseMap subjects e v = true) ∧
      ∀ g, (correlate L traversal teacherCourseMap subjects).get? v = some g →
        ∃ e ∈ traversal, e.2 = g ∧ matchesValue L teacherCourseMap subjects e v = true := by
  rw [correlate_get?]
  constructor
  · cases hf : traversal.reverse.find? (fun e => matchesValue L teacherCourseMap subjects e v) with
    | none =>
      have hn := List.find?_eq_none.mp hf
      simp only [Option.map_none', Option.isSome_none, Bool.false_eq_true, false_iff, not_exists,
        not_and]
      intro e he hm
      exact hn e (List.mem_reverse.mpr he) hm
    | some e =>
      simp only [Option.map_some', Option.isSome_some, true_iff]
      have hp : matchesValue L teacherCourseMap subjects e v = true := by
        simpa using List.find?_some hf
      exact ⟨e, List.mem_reverse.mp (List.mem_of_find?_eq_some hf), hp⟩
  · intro g hg
    cases hf : traversal.reverse.find? (fun e => matchesValue L teacherCourseMap subjects e v) with
    | none => simp [hf] at hg
    | some e =>
      simp only [hf, Option.map_some', Option.some.injEq] at hg
      have hp : matchesValue L teacherCourseMap subjects e v = true := by
        simpa using List.find?_some hf
      exact ⟨e, List.mem_reverse.mp (List.mem_of_find?_eq_some hf), hg, hp⟩

/-- C2 (as stated, refuted): two subjects share the value "v"; the label "Physics" of the
second overlaps no course label, yet the result has an entry at its value. -/
theorem correlate_entry_for_unmatched_label :
    ∃ sub ∈ subjectsSharedValue,
      (correlate ascii [("t1", "B")] [("t1", "Math")] subjectsSharedValue).get? sub.Value =
          some "B" ∧
        ¬ ∃ e ∈ [("t1", "B")], ∃ cName, GoMap.get? [("t1", "Math")] e.1 = some cName ∧
            (Contains (ascii.ToLower cName) (ascii.ToLower sub.Name) = true ∨
              Contains (ascii.ToLower sub.Name) (ascii.ToLower cName) = true) := by
  refine ⟨⟨"v", "Physics", "", ""⟩, by simp [subjectsSharedValue], by decide, ?_⟩
  rintro ⟨e, he, c, hc, ho⟩
  simp only [List.mem_singleton] at he
  subst he
  simp only [GoMap.get?, if_true, Option.some.injEq] at hc
  subst hc
  revert ho
  decide

/-- C2 (amended): the correlation result has an entry at a value `v` exactly when some
instructor with a rating and a course label has a lower-cased course label that contains, or
is contained in, the lower-cased label of a subject of the list whose value is `v`; the
entry is then the rating of such an instructor; a value none of whose subjects overlaps a
course label has no entry. -/
theorem correlate_entry_iff (L : Strings) (customGrades traversal teacherCourseMap : GoMap)
    (subjects : List Teacher) (v : String) (hperm : traversal.Perm customGrades) :
    (((correlate L traversal teacherCourseMap subjects).get? v).isSome = true ↔
        ∃ e ∈ customGrades, ∃ cName, teacherCourseMap.get? e.1 = some cName ∧
          ∃ sub ∈ subjects, sub.Value = v ∧
            (Contains (L.ToLower cName) (L.ToLower sub.Name) = true ∨
              Contains (L.ToLower sub.Name) (L.ToLower cName) = true)) ∧
      (∀ g, (correlate L traversal teacherCourseMap subjects).get? v = some g →
        ∃ e ∈ customGrades, e.2 = g ∧ ∃ cName, teacherCourseMap.get? e.1 = some cName ∧
          ∃ sub ∈ subjects, sub.Value = v ∧
            (Contains (L.ToLower cName) (L.ToLower sub.Name) = true ∨
              Contains (L.ToLower sub.Name) (L.ToLower cName) = true)) ∧
      ((∀ sub ∈ subjects, sub.Value = v → ∀ e ∈ customGrades, ∀ cName,
          teacherCourseMap.get? e.1 = some cName →
            Contains (L.ToLower cName) (L.ToLower sub.Name) = false ∧
              Contains (L.ToLower sub.Name) (L.ToLower cName) = false) →
        (correlate L traversal teacherCourseMap subjects).get? v = none) := by
  have hE := correlate_entry L traversal teacherCourseMap subjects v
  have hiff : ((correlate L traversal teacherCourseMap subjects).get? v).isSome = true ↔
      ∃ e ∈ customGrades, ∃ cName, teacherCourseMap.get? e.1 = some cName ∧
        ∃ sub ∈ subjects, sub.Value = v ∧
          (Contains (L.ToLower cName) (L.ToLower sub.Name) = true ∨
            Contains (L.ToLower sub.Name) (L.ToLower cName) = true) := by
    rw [hE.1]
    constructor
    · rintro ⟨e, he, hm⟩
      exact ⟨e, hperm.mem_iff.mp he, (matchesValue_iff L teacherCourseMap subjects e v).mp hm⟩
    · rintro ⟨e, he, hm⟩
      exact ⟨e, hperm.mem_iff.mpr he, (matchesValue_iff L teacherCourseMap subjects e v).mpr hm⟩
  refine ⟨hiff, ?_, ?_⟩
  · intro g hg
    obtain ⟨e, he, heg, hm⟩ := hE.2 g hg
    exact ⟨e, hperm.mem_iff.mp he, heg,
      (matchesValue_iff L teacherCourseMap subjects e v).mp hm⟩
  · intro hno
    cases hget : (correlate L traversal teacherCourseMap subjects).get? v with
    | none => rfl
    | some g =>
      have hs : ((correlate L traversal teacherCourseMap subjects).get? v).isSome = true := by
        simp [hget]
      obtain ⟨e, he, c, hc, sub, hsub, hv, ho⟩ := hiff.mp hs
      have := hno sub hsub hv e he c hc
      rcases ho with ho | ho
      · simp [this.1] at ho
      · simp [this.2] at ho

/-- Witness of `correlate_entry_iff`: two rated instructors, one subject. -/
theorem correlate_entry_iff_witness :
    ((correlate ascii ratingsTwo coursesTwo subjectsDataLab).get? "s1").isSome = true ↔
      ∃ e ∈ ratingsTwo, ∃ cName, GoMap.get? coursesTwo e.1 = some cName ∧
        ∃ sub ∈ subjectsDataLab, sub.Value = "s1" ∧
          (Contains (ascii.ToLower cName) (ascii.ToLower sub.Name) = true ∨
            Contains (ascii.ToLower sub.Name) (ascii.ToLower cName) = true) :=
  (correlate_entry_iff ascii ratingsTwo ratingsTwo coursesTwo subjectsDataLab "s1"
    (List.Perm.refl _)).1

/-- C3 (as stated, refuted): two instructors with different ratings match the same subject;
walking the rating map in the two possible orders gives two different results. -/
theorem correlate_depends_on_traversal :
    List.Perm [("t2", "C"), ("t1", "B")] ratingsTwo ∧
      (correlate ascii ratingsTwo coursesTwo subjectsDataLab).get? "s1" = some "C" ∧
      (correlate ascii [("t2", "C"), ("t1", "B")] coursesTwo subjectsDataLab).get? "s1" =
        some "B" :=
  ⟨List.Perm.swap _ _ _, by decide, by decide⟩

/-- C3 (amended): when the instructors that match one and the same subject value all carry
the same rating, any two traversal orders of the rating map give results that agree at
every value. -/
theorem correlate_order_independent (L : Strings) (customGrades teacherCourseMap : GoMap)
    (subjects : List Teacher) (traversal₁ traversal₂ : List (String × String))
    (h₁ : traversal₁.Perm customGrades) (h₂ : traversal₂.Perm customGrades)
    (hsame : ∀ e₁ ∈ customGrades, ∀ e₂ ∈ customGrades, ∀ v,
      matchesValue L teacherCourseMap subjects e₁ v = true →
      matchesValue L teacherCourseMap subjects e₂ v = true → e₁.2 = e₂.2) :
    ∀ v, (correlate L traversal₁ teacherCourseMap subjects).get? v =
      (correlate L traversal₂ teacherCourseMap subjects).get? v := by
  intro v
  have hA := correlate_entry L traversal₁ teacherCourseMap subjects v
  have hB := correlate_entry L traversal₂ teacherCourseMap subjects v
  cases ha : (correlate L traversal₁ teacherCourseMap subjects).get? v with
  | none =>
    cases hb : (correlate L traversal₂ teacherCourseMap subjects).get? v with
    | none => rfl
    | some g =>
      obtain ⟨e, he, _, hm⟩ := hB.2 g hb
      have : ((correlate L traversal₁ teacherCourseMap subjects).get? v).isSome = true :=
        hA.1.mpr ⟨e, h₁.mem_iff.mpr (h₂.mem_iff.mp he), hm⟩
      simp [ha] at this
  | some g =>
    obtain ⟨e, he, heg, hm⟩ := hA.2 g ha
    cases hb : (correlate L traversal₂ teacherCourseMap subjects).get? v with
    | none =>
      have : ((correlate L traversal₂ teacherCourseMap subjects).get? v).isSome = true :=
        hB.1.mpr ⟨e, h₂.mem_iff.mpr (h₁.mem_iff.mp he), hm⟩
      simp [hb] at this
    | some g' =>
      obtain ⟨e', he', heg', hm'⟩ := hB.2 g' hb
      have := hsame e (h₁.mem_iff.mp he) e' (h₂.mem_iff.mp he') v hm hm'
      rw [← heg, ← heg', this]

/-- Witness of `correlate_order_independent`: two instructors with the same rating, walked
in both orders. -/
theorem correlate_order_independent_witness :
    (correlate ascii ratingsSame coursesTwo subjectsDataLab).get? "s1" =
      (correlate ascii [("t2", "B"), ("t1", "B")] coursesTwo subjectsDataLab).get? "s1" :=
  correlate_order_independent ascii ratingsSame coursesTwo subjectsDataLab ratingsSame
    [("t2", "B"), ("t1", "B")] (List.Perm.refl _) (List.Perm.swap _ _ _)
    (by
      intro e₁ h₁ e₂ h₂ v _ _
      simp only [ratingsSame, List.mem_cons, List.mem_singleton, List.not_mem_nil, or_false]
        at h₁ h₂
      rcases h₁ with rfl | rfl <;> rcases h₂ with rfl | rfl <;> rfl)
    "s1"

/-! ## Requests -/

theorem makeRequest_get (w : World) (s : Session) (urlStr : String) :
    makeRequest w s "GET" urlStr none =
      (w.roundTrip s.log (Request.get urlStr),
        { s with log := s.log ++ [⟨Request.get urlStr, w.roundTrip s.log (Request.get urlStr)⟩] }) :=
  rfl

theorem makeRequest_post (w : World) (s : Session) (urlStr : String) (data : GoMap) :
    makeRequest w s "POST" urlStr (some data) =
      (w.roundTrip s.log (Request.post urlStr data),
        { s with log := s.log ++
            [⟨Request.post urlStr data, w.roundTrip s.log (Request.post urlStr data)⟩] }) :=
  rfl

/-! ## Login -/

/-- C5: in a login attempt whose page fetch returned a page with a non-empty state token and
whose credentials POST returned a response, the attempt succeeds exactly when the lower-cased
response body contains "logout".  With the marker the login loop is left (`main` goes on with
`proformas`); without it the loop goes round again, prompting anew from the remaining operator
input, and the attempt has sent nothing but its two requests to the login URL. -/
theorem login_iff_logout_marker (w : World) (L : Strings) (fuel : Nat) (s : Session)
    (page resp : Response)
    (hget : w.roundTrip s.log (Request.get LoginURL) = some page)
    (hvs : (getHiddenFields page.doc).ViewState ≠ "")
    (hpost : w.roundTrip (s.log ++ [⟨Request.get LoginURL, some page⟩])
      (Request.post LoginURL (loginData (getHiddenFields page.doc) (L.TrimSpace (s.stdin.headD ""))
        (s.stdin.tail.headD ""))) = some resp) :
    loginAttempt w L (prompt L s false).1 (prompt L (prompt L s false).2 true).1
        (prompt L (prompt L s false).2 true).2 =
      (Contains (L.ToLower resp.body) "logout", afterLoginAttempt L s page resp) ∧
    loginLoop w L (fuel + 1) s =
      (if Contains (L.ToLower resp.body) "logout" = true then (true, afterLoginAttempt L s page resp)
       else loginLoop w L fuel (afterLoginAttempt L s page resp)) ∧
    (∀ stdin, s = Session.init stdin → Contains (L.ToLower resp.body) "logout" = true →
      main w L (fuel + 1) stdin = proformas w L (fuel + 1) (afterLoginAttempt L s page resp)) ∧
    (∀ e ∈ (afterLoginAttempt L s page resp).log, e ∈ s.log ∨ e.req.url = LoginURL) := by
  have hatt : loginAttempt w L (prompt L s false).1 (prompt L (prompt L s false).2 true).1
        (prompt L (prompt L s false).2 true).2 =
      (Contains (L.ToLower resp.body) "logout", afterLoginAttempt L s page resp) := by
    simp only [loginAttempt, prompt, makeRequest_get, makeRequest_post, Bool.false_eq_true,
      if_false, if_true, hget, hvs, hpost, afterLoginAttempt, List.append_assoc,
      List.singleton_append]
  have hloop : loginLoop w L (fuel + 1) s =
      (if Contains (L.ToLower resp.body) "logout" = true then (true, afterLoginAttempt L s page resp)
       else loginLoop w L fuel (afterLoginAttempt L s page resp)) := by
    rw [loginLoop]
    simp only [hatt]
    cases Contains (L.ToLower resp.body) "logout" <;> simp
  refine ⟨hatt, hloop, ?_, ?_⟩
  · intro stdin hs hm
    subst hs
    rw [main, hloop, if_pos hm]
  · intro e he
    simp only [afterLoginAttempt, List.mem_append, List.mem_cons, List.mem_singleton,
      List.not_mem_nil, or_false] at he
    rcases he with he | he | he
    · exact Or.inl he
    · exact Or.inr (by rw [he]; rfl)
    · exact Or.inr (by rw [he]; rfl)

/-- Witness of `login_iff_logout_marker`: the first attempt against the sample portal. -/
theorem login_iff_logout_marker_witness :
    loginLoop portal ascii (0 + 1) (Session.init operatorDeclines) =
      (if Contains (ascii.ToLower portalWelcome.body) "logout" = true then
        (true, afterLoginAttempt ascii (Session.init operatorDeclines) portalLoginPage portalWelcome)
       else loginLoop portal ascii 0
        (afterLoginAttempt ascii (Session.init operatorDeclines) portalLoginPage portalWelcome)) :=
  (login_iff_logout_marker portal ascii 0 (Session.init operatorDeclines) portalLoginPage
    portalWelcome (by decide) (by decide) (by decide)).2.1

/-! ## Token freshness -/

/-- C6 (the code at the failing input): against the sample portal, with custom grades
declined, the eighth exchange is the submission for instructor "t1", whose response carries
the tokens numbered 7; the next request is the reveal POST for instructor "t2", and it
carries the tokens numbered 6, taken from the response before. -/
theorem reveal_after_submission_carries_older_tokens :
    ((main portal ascii 1 operatorDeclines).2.log[7]?).map
        (fun e => (e.req.url, (e.req.data.getD []).get? "ctl00$ContentPlaceHolder2$btnSave",
          returnedTokens e)) =
      some (TeacherEvaluationURL, some "Save Proforma Proforma", some ⟨"vs7", "ev7", "g7"⟩) ∧
    ((main portal ascii 1 operatorDeclines).2.log[8]?).map
        (fun e => (e.req.method, e.req.url, (e.req.data.getD []).get? "__EVENTTARGET",
          (e.req.data.getD []).get? "ctl00$ContentPlaceHolder2$ddlTeacher", carriedTokens e.req)) =
      some ("POST", TeacherEvaluationURL, some "ctl00$ContentPlaceHolder2$ddlTeacher", some "t2",
        some ⟨"vs6", "ev6", "g6"⟩) := by
  decide

/-! ## Forms -/

theorem questionNames2 :
    (List.range 16).map (fun i => "ctl00$ContentPlaceHolder2$" ++ "q" ++ toString (i + 1)) =
      ["ctl00$ContentPlaceHolder2$q1", "ctl00$ContentPlaceHolder2$q2",
       "ctl00$ContentPlaceHolder2$q3", "ctl00$ContentPlaceHolder2$q4",
       "ctl00$ContentPlaceHolder2$q5", "ctl00$ContentPlaceHolder2$q6",
       "ctl00$ContentPlaceHolder2$q7", "ctl00$ContentPlaceHolder2$q8",
       "ctl00$ContentPlaceHolder2$q9", "ctl00$ContentPlaceHolder2$q10",
       "ctl00$ContentPlaceHolder2$q11", "ctl00$ContentPlaceHolder2$q12",
       "ctl00$ContentPlaceHolder2$q13", "ctl00$ContentPlaceHolder2$q14",
       "ctl00$ContentPlaceHolder2$q15", "ctl00$ContentPlaceHolder2$q16"] := by
  decide

theorem questionNames2_twelve :
    (List.range 12).map (fun i => "ctl00$ContentPlaceHolder2$" ++ "q" ++ toString (i + 1)) =
      ["ctl00$ContentPlaceHolder2$q1", "ctl00$ContentPlaceHolder2$q2",
       "ctl00$ContentPlaceHolder2$q3", "ctl00$ContentPlaceHolder2$q4",
       "ctl00$ContentPlaceHolder2$q5", "ctl00$ContentPlaceHolder2$q6",
       "ctl00$ContentPlaceHolder2$q7", "ctl00$ContentPlaceHolder2$q8",
       "ctl00$ContentPlaceHolder2$q9", "ctl00$ContentPlaceHolder2$q10",
       "ctl00$ContentPlaceHolder2$q11", "ctl00$ContentPlaceHolder2$q12"] := by
  decide

theorem questionNames1 :
    (List.range 16).map (fun i => "ctl00$ContentPlaceHolder1$" ++ "q" ++ toString (i + 1)) =
      ["ctl00$ContentPlaceHolder1$q1", "ctl00$ContentPlaceHolder1$q2",
       "ctl00$ContentPlaceHolder1$q3", "ctl00$ContentPlaceHolder1$q4",
       "ctl00$ContentPlaceHolder1$q5", "ctl00$ContentPlaceHolder1$q6",
       "ctl00$ContentPlaceHolder1$q7", "ctl00$ContentPlaceHolder1$q8",
       "ctl00$ContentPlaceHolder1$q9", "ctl00$ContentPlaceHolder1$q10",
       "ctl00$ContentPlaceHolder1$q11", "ctl00$ContentPlaceHolder1$q12",
       "ctl00$ContentPlaceHolder1$q13", "ctl00$ContentPlaceHolder1$q14",
       "ctl00$ContentPlaceHolder1$q15", "ctl00$ContentPlaceHolder1$q16"] := by
  decide

theorem GoMap.Set_fresh (m : GoMap) (k v : String) (h : k ∉ m.map Prod.fst) :
    m.Set k v = m ++ [(k, v)] := by
  induction m with
  | nil => rfl
  | cons p rest ih =>
    obtain ⟨a, b⟩ := p
    simp only [List.map_cons, List.mem_cons, not_or] at h
    have : ¬ a = k := fun e => h.1 e.symm
    simp [GoMap.Set, this, ih h.2]

theorem setQuestions_keys (pre : String) (n : Nat) (grade : String) (data : GoMap) :
    setQuestions pre n grade data =
      ((List.range n).map (fun i => pre ++ "q" ++ toString (i + 1))).foldl
        (fun d k => d.Set k grade) data := by
  simp [setQuestions, List.foldl_map]

theorem foldl_Set_fresh (keys : List String) (grade : String) (d : GoMap)
    (h : (d.map Prod.fst ++ keys).Nodup) :
    keys.foldl (fun d k => GoMap.Set d k grade) d = d ++ keys.map (fun k => (k, grade)) := by
  induction keys generalizing d with
  | nil => simp
  | cons k rest ih =>
    have hk : k ∉ d.map Prod.fst := by
      intro hmem
      have := List.nodup_append.mp h
      exact this.2.2 hmem (List.mem_cons_self _ _)
    rw [List.foldl_cons, GoMap.Set_fresh _ _ _ hk, ih]
    · simp
    · simpa [List.append_assoc] using h

theorem loginData_eq (hf : HiddenFields) (username password : String) :
    loginData hf username password =
      [("ctl00$ContentPlaceHolder2$ddlcampus", "Islamabad"),
       ("ctl00$ContentPlaceHolder2$ddlUserType", "Student/Alumni"),
       ("ctl00$ContentPlaceHolder2$txt_regid", username),
       ("ctl00$ContentPlaceHolder2$txt_password", password),
       ("ctl00$ContentPlaceHolder2$btnAccountlogin", "Login"),
       ("__VIEWSTATE", hf.ViewState),
       ("__EVENTVALIDATION", hf.EventValidation),
       ("__VIEWSTATEGENERATOR", hf.ViewStateGenerator)] := by
  unfold loginData
  dsimp only
  rw [GoMap.Set_fresh [] _ _ (by simp)]
  rw [GoMap.Set_fresh _ "ctl00$ContentPlaceHolder2$ddlUserType" _ (by simp)]
  rw [GoMap.Set_fresh _ "ctl00$ContentPlaceHolder2$txt_regid" _ (by simp)]
  rw [GoMap.Set_fresh _ "ctl00$ContentPlaceHolder2$txt_password" _ (by simp)]
  rw [GoMap.Set_fresh _ "ctl00$ContentPlaceHolder2$btnAccountlogin" _ (by simp)]
  rw [GoMap.Set_fresh _ "__VIEWSTATE" _ (by simp)]
  rw [GoMap.Set_fresh _ "__EVENTVALIDATION" _ (by simp)]
  rw [GoMap.Set_fresh _ "__VIEWSTATEGENERATOR" _ (by simp)]
  simp

theorem revealData_teacher_eq (hf : HiddenFields) (value : String) :
    revealData "ctl00$ContentPlaceHolder2$ddlTeacher" hf value =
      [("__EVENTTARGET", "ctl00$ContentPlaceHolder2$ddlTeacher"),
       ("__VIEWSTATE", hf.ViewState),
       ("__VIEWSTATEGENERATOR", hf.ViewStateGenerator),
       ("__EVENTVALIDATION", hf.EventValidation),
       ("ctl00$ContentPlaceHolder2$ddlTeacher", value)] := by
  unfold revealData
  dsimp only
  rw [GoMap.Set_fresh [] _ _ (by simp)]
  rw [GoMap.Set_fresh _ "__VIEWSTATE" _ (by simp)]
  rw [GoMap.Set_fresh _ "__VIEWSTATEGENERATOR" _ (by simp)]
  rw [GoMap.Set_fresh _ "__EVENTVALIDATION" _ (by simp)]
  rw [GoMap.Set_fresh _ "ctl00$ContentPlaceHolder2$ddlTeacher" _ (by simp)]
  simp

theorem revealData_subject_eq (hf : HiddenFields) (value : String) :
    revealData "ctl00$ContentPlaceHolder2$cmb_courses" hf value =
      [("__EVENTTARGET", "ctl00$ContentPlaceHolder2$cmb_courses"),
       ("__VIEWSTATE", hf.ViewState),
       ("__VIEWSTATEGENERATOR", hf.ViewStateGenerator),
       ("__EVENTVALIDATION", hf.EventValidation),
       ("ctl00$ContentPlaceHolder2$cmb_courses", value)] := by
  unfold revealData
  dsimp only
  rw [GoMap.Set_fresh [] _ _ (by simp)]
  rw [GoMap.Set_fresh _ "__VIEWSTATE" _ (by simp)]
  rw [GoMap.Set_fresh _ "__VIEWSTATEGENERATOR" _ (by simp)]
  rw [GoMap.Set_fresh _ "__EVENTVALIDATION" _ (by simp)]
  rw [GoMap.Set_fresh _ "ctl00$ContentPlaceHolder2$cmb_courses" _ (by simp)]
  simp

theorem revealData_online_eq (hf : HiddenFields) (value : String) :
    revealData "ctl00$ContentPlaceHolder1$cmb_courses" hf value =
      [("__EVENTTARGET", "ctl00$ContentPlaceHolder1$cmb_courses"),
       ("__VIEWSTATE", hf.ViewState),
       ("__VIEWSTATEGENERATOR", hf.ViewStateGenerator),
       ("__EVENTVALIDATION", hf.EventValidation),
       ("ctl00$ContentPlaceHolder1$cmb_courses", value)] := by
  unfold revealData
  dsimp only
  rw [GoMap.Set_fresh [] _ _ (by simp)]
  rw [GoMap.Set_fresh _ "__VIEWSTATE" _ (by simp)]
  rw [GoMap.Set_fresh _ "__VIEWSTATEGENERATOR" _ (by simp)]
  rw [GoMap.Set_fresh _ "__EVENTVALIDATION" _ (by simp)]
  rw [GoMap.Set_fresh _ "ctl00$ContentPlaceHolder1$cmb_courses" _ (by simp)]
  simp

theorem subjectData_eq (hf : HiddenFields) (value grade : String) :
    subjectData hf value grade =
      [("__EVENTTARGET", "ctl00$ContentPlaceHolder2$cmb_courses"),
       ("__VIEWSTATE", hf.ViewState),
       ("__VIEWSTATEGENERATOR", hf.ViewStateGenerator),
       ("__EVENTVALIDATION", hf.EventValidation),
       ("ctl00$ContentPlaceHolder2$cmb_courses", value),
       ("ctl00$ContentPlaceHolder2$q1", grade), ("ctl00$ContentPlaceHolder2$q2", grade),
       ("ctl00$ContentPlaceHolder2$q3", grade), ("ctl00$ContentPlaceHolder2$q4", grade),
       ("ctl00$ContentPlaceHolder2$q5", grade), ("ctl00$ContentPlaceHolder2$q6", grade),
       ("ctl00$ContentPlaceHolder2$q7", grade), ("ctl00$ContentPlaceHolder2$q8", grade),
       ("ctl00$ContentPlaceHolder2$q9", grade), ("ctl00$ContentPlaceHolder2$q10", grade),
       ("ctl00$ContentPlaceHolder2$q11", grade), ("ctl00$ContentPlaceHolder2$q12", grade),
       ("ctl00$ContentPlaceHolder2$btnSave", "Submit Proforma")] := by
  unfold subjectData
  simp only [setQuestions_keys, questionNames2_twelve, revealData_subject_eq]
  rw [foldl_Set_fresh _ _ _ (by
    simp only [List.map_append, List.map_cons, List.map_nil, List.nil_append, List.cons_append]
    decide)]
  rw [GoMap.Set_fresh _ "ctl00$ContentPlaceHolder2$btnSave" _ (by simp)]
  simp

theorem teacherFormData_eq (hf : HiddenFields) (value grade : String) :
    teacherFormData hf value grade =
      [("__VIEWSTATE", hf.ViewState),
       ("__VIEWSTATEGENERATOR", hf.ViewStateGenerator),
       ("__EVENTVALIDATION", hf.EventValidation),
       ("ctl00$ContentPlaceHolder2$ddlTeacher", value),
       ("ctl00$ContentPlaceHolder2$q1", grade), ("ctl00$ContentPlaceHolder2$q2", grade),
       ("ctl00$ContentPlaceHolder2$q3", grade), ("ctl00$ContentPlaceHolder2$q4", grade),
       ("ctl00$ContentPlaceHolder2$q5", grade), ("ctl00$ContentPlaceHolder2$q6", grade),
       ("ctl00$ContentPlaceHolder2$q7", grade), ("ctl00$ContentPlaceHolder2$q8", grade),
       ("ctl00$ContentPlaceHolder2$q9", grade), ("ctl00$ContentPlaceHolder2$q10", grade),
       ("ctl00$ContentPlaceHolder2$q11", grade), ("ctl00$ContentPlaceHolder2$q12", grade),
       ("ctl00$ContentPlaceHolder2$q13", grade), ("ctl00$ContentPlaceHolder2$q14", grade),
       ("ctl00$ContentPlaceHolder2$q15", grade), ("ctl00$ContentPlaceHolder2$q16", grade),
       ("ctl00$ContentPlaceHolder2$q20", "Good instructor"),
       ("ctl00$ContentPlaceHolder2$q21", "Good course"),
       ("ctl00$ContentPlaceHolder2$btnSave", "Save Proforma Proforma")] := by
  unfold teacherFormData
  simp only [setQuestions_keys, questionNames2]
  rw [GoMap.Set_fresh [] _ _ (by simp)]
  rw [GoMap.Set_fresh _ "__VIEWSTATEGENERATOR" _ (by simp)]
  rw [GoMap.Set_fresh _ "__EVENTVALIDATION" _ (by simp)]
  rw [GoMap.Set_fresh _ "ctl00$ContentPlaceHolder2$ddlTeacher" _ (by simp)]
  rw [foldl_Set_fresh _ _ _ (by
    simp only [List.map_append, List.map_cons, List.map_nil, List.nil_append, List.cons_append]
    decide)]
  rw [GoMap.Set_fresh _ "ctl00$ContentPlaceHolder2$q20" _ (by simp)]
  rw [GoMap.Set_fresh _ "ctl00$ContentPlaceHolder2$q21" _ (by simp)]
  rw [GoMap.Set_fresh _ "ctl00$ContentPlaceHolder2$btnSave" _ (by simp)]
  simp

theorem onlineFormData_eq (hf : HiddenFields) (value grade : String) :
    onlineFormData hf value grade =
      [("__VIEWSTATE", hf.ViewState),
       ("__VIEWSTATEGENERATOR", hf.ViewStateGenerator),
       ("__EVENTVALIDATION", hf.EventValidation),
       ("ctl00$ContentPlaceHolder1$cmb_courses", value),
       ("ctl00$ContentPlaceHolder1$q1", grade), ("ctl00$ContentPlaceHolder1$q2", grade),
       ("ctl00$ContentPlaceHolder1$q3", grade), ("ctl00$ContentPlaceHolder1$q4", grade),
       ("ctl00$ContentPlaceHolder1$q5", grade), ("ctl00$ContentPlaceHolder1$q6", grade),
       ("ctl00$ContentPlaceHolder1$q7", grade), ("ctl00$ContentPlaceHolder1$q8", grade),
       ("ctl00$ContentPlaceHolder1$q9", grade), ("ctl00$ContentPlaceHolder1$q10", grade),
       ("ctl00$ContentPlaceHolder1$q11", grade), ("ctl00$ContentPlaceHolder1$q12", grade),
       ("ctl00$ContentPlaceHolder1$q13", grade), ("ctl00$ContentPlaceHolder1$q14", grade),
       ("ctl00$ContentPlaceHolder1$q15", grade), ("ctl00$ContentPlaceHolder1$q16", grade),
       ("ctl00$ContentPlaceHolder1$q20", "Good online learning experience"),
       ("ctl00$ContentPlaceHolder1$btnSave", "Submit Proforma")] := by
  unfold onlineFormData
  simp only [setQuestions_keys, questionNames1]
  rw [GoMap.Set_fresh [] _ _ (by simp)]
  rw [GoMap.Set_fresh _ "__VIEWSTATEGENERATOR" _ (by simp)]
  rw [GoMap.Set_fresh _ "__EVENTVALIDATION" _ (by simp)]
  rw [GoMap.Set_fresh _ "ctl00$ContentPlaceHolder1$cmb_courses" _ (by simp)]
  rw [foldl_Set_fresh _ _ _ (by
    simp only [List.map_append, List.map_cons, List.map_nil, List.nil_append, List.cons_append]
    decide)]
  rw [GoMap.Set_fresh _ "ctl00$ContentPlaceHolder1$q20" _ (by simp)]
  rw [GoMap.Set_fresh _ "ctl00$ContentPlaceHolder1$btnSave" _ (by simp)]
  simp

/-! ## The submission loops, run to their end -/

theorem subjectLoop_ok (w : World) (gm : GoMap) (subs : List Teacher) (s : Session)
    (h : (subjectLoop w gm subs s).1 = .ok ()) :
    ∃ hfs : List HiddenFields, hfs.length = subs.length ∧
      (subjectLoop w gm subs s).2.log.map (fun e => e.req) =
        s.log.map (fun e => e.req) ++ subjectRequests gm subs hfs := by
  induction subs generalizing s with
  | nil => exact ⟨[], rfl, by simp [subjectLoop, subjectRequests]⟩
  | cons sub rest ih =>
    simp only [subjectLoop, makeRequest_post] at h ⊢
    cases hr : w.roundTrip s.log
        (Request.post FirstPerformaURL (subjectData s.hf sub.Value ((gm.get? sub.Value).getD "A"))) with
    | none => simp [hr] at h
    | some r =>
      simp only [hr] at h ⊢
      obtain ⟨hfs, hl, hlog⟩ := ih _ h
      refine ⟨s.hf :: hfs, by simp [hl], ?_⟩
      rw [hlog]
      simp [subjectRequests]

theorem teacherLoop_ok (w : World) (cg : GoMap) (ts : List Teacher) (s : Session)
    (h : (teacherLoop w cg ts s).1 = .ok ()) :
    ∃ hfs : List (HiddenFields × HiddenFields), hfs.length = ts.length ∧
      (teacherLoop w cg ts s).2.log.map (fun e => e.req) =
        s.log.map (fun e => e.req) ++ teacherRequests cg ts hfs := by
  induction ts generalizing s with
  | nil => exact ⟨[], rfl, by simp [teacherLoop, teacherRequests]⟩
  | cons t rest ih =>
    simp only [teacherLoop, makeRequest_post] at h ⊢
    cases hr : w.roundTrip s.log (Request.post TeacherEvaluationURL
        (revealData "ctl00$ContentPlaceHolder2$ddlTeacher" s.hf t.Value)) with
    | none => simp [hr] at h
    | some r =>
      simp only [hr] at h ⊢
      cases hr2 : w.roundTrip (s.log ++ [⟨Request.post TeacherEvaluationURL
          (revealData "ctl00$ContentPlaceHolder2$ddlTeacher" s.hf t.Value), some r⟩])
          (Request.post TeacherEvaluationURL
            (teacherFormData (getHiddenFields r.doc) t.Value ((cg.get? t.Value).getD "A"))) with
      | none => simp [hr2] at h
      | some r2 =>
        simp only [hr2] at h ⊢
        obtain ⟨hfs, hl, hlog⟩ := ih _ h
        refine ⟨(s.hf, getHiddenFields r.doc) :: hfs, by simp [hl], ?_⟩
        rw [hlog]
        simp [teacherRequests]

theorem onlineLoop_ok (w : World) (gm : GoMap) (subs : List Teacher) (s : Session)
    (h : (onlineLoop w gm subs s).1 = .ok ()) :
    ∃ hfs : List (HiddenFields × HiddenFields), hfs.length = subs.length ∧
      (onlineLoop w gm subs s).2.log.map (fun e => e.req) =
        s.log.map (fun e => e.req) ++ onlineRequests gm subs hfs := by
  induction subs generalizing s with
  | nil => exact ⟨[], rfl, by simp [onlineLoop, onlineRequests]⟩
  | cons sub rest ih =>
    simp only [onlineLoop, makeRequest_post] at h ⊢
    cases hr : w.roundTrip s.log (Request.post OnlineLearningFeedbackURL
        (revealData "ctl00$ContentPlaceHolder1$cmb_courses" s.hf sub.Value)) with
    | none => simp [hr] at h
    | some r =>
      simp only [hr] at h ⊢
      cases hr2 : w.roundTrip (s.log ++ [⟨Request.post OnlineLearningFeedbackURL
          (revealData "ctl00$ContentPlaceHolder1$cmb_courses" s.hf sub.Value), some r⟩])
          (Request.post OnlineLearningFeedbackURL
            (onlineFormData (getHiddenFields r.doc) sub.Value ((gm.get? sub.Value).getD "A"))) with
      | none => simp [hr2] at h
      | some r2 =>
        simp only [hr2] at h ⊢
        obtain ⟨hfs, hl, hlog⟩ := ih _ h
        refine ⟨(s.hf, getHiddenFields r.doc) :: hfs, by simp [hl], ?_⟩
        rw [hlog]
        simp [onlineRequests]

/-! ## Proforma 1 -/

/-- C7 (the code at the failing input): in the run against the sample portal in which the
operator rates the two instructors, the only requests sent to proforma 1 are the page fetch
and, for its one subject, a single POST; that POST names the dropdown as event target and at
once carries the submit trigger and the correlated rating "B"; no reveal POST is sent on its
own before it. -/
theorem stageB_sends_no_separate_reveal :
    ((main portal ascii 3 operatorGrades).2.log.filter
        (fun e => e.req.url = FirstPerformaURL)).map
        (fun e => (e.req.method, (e.req.data.getD []).get? "__EVENTTARGET",
          (e.req.data.getD []).get? "ctl00$ContentPlaceHolder2$btnSave",
          (e.req.data.getD []).get? "ctl00$ContentPlaceHolder2$q1")) =
      [("GET", none, none, none),
       ("POST", some "ctl00$ContentPlaceHolder2$cmb_courses", some "Submit Proforma",
         some "B")] := by
  decide

theorem stageB_ok (w : World) (L : Strings) (customGrades teacherCourseMap : GoMap)
    (s : Session) (subjectGradeMap : GoMap)
    (hok : (stageB w L customGrades teacherCourseMap s).1 = .ok subjectGradeMap) :
    ∃ resp hfs, w.roundTrip s.log (Request.get FirstPerformaURL) = some resp ∧
      subjectGradeMap =
        correlate L (w.rangeOrder customGrades) teacherCourseMap (scanSubjects L resp.doc) ∧
      hfs.length = (scanSubjects L resp.doc).length ∧
      (stageB w L customGrades teacherCourseMap s).2.log.map (fun e => e.req) =
        s.log.map (fun e => e.req) ++
          Request.get FirstPerformaURL ::
            (((scanSubjects L resp.doc).zip hfs).map (fun p =>
              Request.post FirstPerformaURL
                (subjectData p.2 p.1.Value ((subjectGradeMap.get? p.1.Value).getD "A")))) := by
  simp only [stageB, makeRequest_get] at hok ⊢
  cases hr : w.roundTrip s.log (Request.get FirstPerformaURL) with
  | none => simp [hr] at hok
  | some resp =>
    simp only [hr] at hok ⊢
    by_cases hz : (scanSubjects L resp.doc).length = 0
    · simp only [hz, if_true] at hok ⊢
      have hnil : scanSubjects L resp.doc = [] := List.length_eq_zero.mp hz
      refine ⟨resp, [], rfl, ?_, by simp [hnil], by simp [hnil]⟩
      simpa using hok.symm
    · simp only [hz, if_false] at hok ⊢
      cases hl : subjectLoop w
          (correlate L (w.rangeOrder customGrades) teacherCourseMap (scanSubjects L resp.doc))
          (scanSubjects L resp.doc)
          { log := s.log ++ [⟨Request.get FirstPerformaURL, some resp⟩], stdin := s.stdin,
            hf := getHiddenFields resp.doc } with
      | mk res s' =>
        cases res with
        | error e => simp [hl] at hok
        | ok u =>
          simp only [hl] at hok ⊢
          have hgm : subjectGradeMap =
              correlate L (w.rangeOrder customGrades) teacherCourseMap (scanSubjects L resp.doc) := by
            simpa using hok.symm
          have hok' : (subjectLoop w
              (correlate L (w.rangeOrder customGrades) teacherCourseMap (scanSubjects L resp.doc))
              (scanSubjects L resp.doc)
              { log := s.log ++ [⟨Request.get FirstPerformaURL, some resp⟩], stdin := s.stdin,
                hf := getHiddenFields resp.doc }).1 = .ok () := by
            rw [hl]
          obtain ⟨hfs, hlen, hlog⟩ := subjectLoop_ok w _ _ _ hok'
          rw [hl] at hlog
          refine ⟨resp, hfs, rfl, hgm, hlen, ?_⟩
          rw [hlog, hgm]
          simp [subjectRequests]

/-- What proforma 1 sends when it runs to its end: after the page fetch one POST per subject,
in list order, built by `subjectData` with the entry of the correlation result at the
subject's value, or "A"; with the explicit form of `subjectData`. -/
theorem stageB_requests (w : World) (L : Strings) (customGrades teacherCourseMap : GoMap)
    (s : Session) (subjectGradeMap : GoMap)
    (hok : (stageB w L customGrades teacherCourseMap s).1 = .ok subjectGradeMap) :
    (∃ resp hfs, w.roundTrip s.log (Request.get FirstPerformaURL) = some resp ∧
      subjectGradeMap =
        correlate L (w.rangeOrder customGrades) teacherCourseMap (scanSubjects L resp.doc) ∧
      hfs.length = (scanSubjects L resp.doc).length ∧
      (stageB w L customGrades teacherCourseMap s).2.log.map (fun e => e.req) =
        s.log.map (fun e => e.req) ++
          Request.get FirstPerformaURL ::
            (((scanSubjects L resp.doc).zip hfs).map (fun p =>
              Request.post FirstPerformaURL
                (subjectData p.2 p.1.Value ((subjectGradeMap.get? p.1.Value).getD "A"))))) ∧
    ∀ hf value grade, subjectData hf value grade =
      [("__EVENTTARGET", "ctl00$ContentPlaceHolder2$cmb_courses"),
       ("__VIEWSTATE", hf.ViewState),
       ("__VIEWSTATEGENERATOR", hf.ViewStateGenerator),
       ("__EVENTVALIDATION", hf.EventValidation),
       ("ctl00$ContentPlaceHolder2$cmb_courses", value),
       ("ctl00$ContentPlaceHolder2$q1", grade), ("ctl00$ContentPlaceHolder2$q2", grade),
       ("ctl00$ContentPlaceHolder2$q3", grade), ("ctl00$ContentPlaceHolder2$q4", grade),
       ("ctl00$ContentPlaceHolder2$q5", grade), ("ctl00$ContentPlaceHolder2$q6", grade),
       ("ctl00$ContentPlaceHolder2$q7", grade), ("ctl00$ContentPlaceHolder2$q8", grade),
       ("ctl00$ContentPlaceHolder2$q9", grade), ("ctl00$ContentPlaceHolder2$q10", grade),
       ("ctl00$ContentPlaceHolder2$q11", grade), ("ctl00$ContentPlaceHolder2$q12", grade),
       ("ctl00$ContentPlaceHolder2$btnSave", "Submit Proforma")] := by
  exact ⟨stageB_ok w L customGrades teacherCourseMap s subjectGradeMap hok, subjectData_eq⟩

/-! ## Grade capture and proforma 10 -/

theorem gradePrompt_valid (L : Strings) (fuel : Nat) (s : Session) (g : String)
    (h : (gradePrompt L fuel s).1 = some g) : g ∈ ["A", "B", "C", "D"] := by
  induction fuel generalizing s with
  | zero => simp [gradePrompt] at h
  | succ n ih =>
    simp only [gradePrompt] at h
    split at h
    · rename_i hv
      simp only [Option.some.injEq] at h
      subst h
      simpa using hv
    · exact ih _ h

theorem captureLoop_ok (w : World) (L : Strings) (fuel : Nat) (ts : List Teacher)
    (cg tcm : GoMap) (s : Session) (captured : List Teacher) (cg' tcm' : GoMap)
    (h : (captureLoop w L fuel ts cg tcm s).1 = .ok (captured, cg', tcm')) :
    captured.map (fun t => (t.Value, t.Name)) = ts.map (fun t => (t.Value, t.Name)) ∧
      (∀ t ∈ captured, t.Grade ∈ ["A", "B", "C", "D"]) ∧
      ∀ v, cg'.get? v =
        match lastGrade captured v with
        | some g => some g
        | none => cg.get? v := by
  induction ts generalizing cg tcm s captured cg' tcm' with
  | nil =>
    simp only [captureLoop, Except.ok.injEq, Prod.mk.injEq] at h
    obtain ⟨h1, h2, _⟩ := h
    subst h1 h2
    simp [lastGrade]
  | cons t rest ih =>
    simp only [captureLoop, makeRequest_post] at h
    cases hr : w.roundTrip s.log (Request.post TeacherEvaluationURL
        (revealData "ctl00$ContentPlaceHolder2$ddlTeacher" s.hf t.Value)) with
    | none => simp [hr] at h
    | some r =>
      simp only [hr] at h
      cases hg : gradePrompt L fuel
          { log := s.log ++ [⟨Request.post TeacherEvaluationURL
              (revealData "ctl00$ContentPlaceHolder2$ddlTeacher" s.hf t.Value), some r⟩],
            stdin := s.stdin, hf := getHiddenFields r.doc } with
      | mk og s2 =>
        cases og with
        | none => simp [hg] at h
        | some grade =>
          simp only [hg] at h
          have hvalid : grade ∈ ["A", "B", "C", "D"] :=
            gradePrompt_valid L fuel _ grade (by rw [hg])
          cases hrec : captureLoop w L fuel rest (cg.Set t.Value grade)
              (tcm.Set t.Value (scrapeCourse L r.doc)) s2 with
          | mk res s3 =>
            cases res with
            | error e => simp [hrec] at h
            | ok val =>
              obtain ⟨ts', cg2, tcm2⟩ := val
              simp only [hrec, Except.ok.injEq, Prod.mk.injEq] at h
              obtain ⟨h1, h2, h3⟩ := h
              subst h1 h2 h3
              obtain ⟨ihm, ihg, ihv⟩ := ih (cg.Set t.Value grade)
                (tcm.Set t.Value (scrapeCourse L r.doc)) s2 ts' cg2 tcm2 (by rw [hrec])
              refine ⟨by simp [ihm], ?_, ?_⟩
              · intro x hx
                simp only [List.mem_cons] at hx
                rcases hx with hx | hx
                · subst hx
                  exact hvalid
                · exact ihg x hx
              · intro v
                rw [ihv v]
                simp only [lastGrade, List.reverse_cons, List.find?_append]
                cases hfind : ts'.reverse.find? (fun t => decide (t.Value = v)) with
                | some x => simp
                | none =>
                  by_cases hv : t.Value = v
                  · simp [hv, GoMap.get?_Set]
                  · simp [hv, GoMap.get?_Set]

/-! ## Proforma 10a -/

theorem stageD_ok (w : World) (L : Strings) (gm : GoMap) (s : Session)
    (hok : (stageD w L gm s).1 = .ok ()) :
    ∃ resp, ∃ hfs : List (HiddenFields × HiddenFields),
      w.roundTrip s.log (Request.get OnlineLearningFeedbackURL) = some resp ∧
      hfs.length = (scanOnlineSubjects L resp.doc).length ∧
      (stageD w L gm s).2.log.map (fun e => e.req) =
        s.log.map (fun e => e.req) ++
          Request.get OnlineLearningFeedbackURL ::
            onlineRequests gm (scanOnlineSubjects L resp.doc) hfs := by
  simp only [stageD, makeRequest_get] at hok ⊢
  cases hr : w.roundTrip s.log (Request.get OnlineLearningFeedbackURL) with
  | none => simp [hr] at hok
  | some resp =>
    simp only [hr] at hok ⊢
    by_cases hz : (scanOnlineSubjects L resp.doc).length = 0
    · simp only [hz, if_true] at hok ⊢
      have hnil : scanOnlineSubjects L resp.doc = [] := List.length_eq_zero.mp hz
      exact ⟨resp, [], rfl, by simp [hnil], by simp [hnil, onlineRequests]⟩
    · simp only [hz, if_false] at hok ⊢
      obtain ⟨hfs, hlen, hlog⟩ := onlineLoop_ok w _ _ _ hok
      refine ⟨resp, hfs, rfl, hlen, ?_⟩
      rw [hlog]
      simp

theorem proformas_log_eq_stageD (w : World) (L : Strings) (fuel : Nat) (s : Session)
    (cg tcm : GoMap) (sA : Session) (gm : GoMap) (sB sC : Session)
    (hA : stageA w L fuel s = (.ok (cg, tcm), sA))
    (hB : stageB w L cg tcm sA = (.ok gm, sB))
    (hC : stageC w L cg sB = (.ok (), sC)) :
    (proformas w L fuel s).2.log = (stageD w L gm sC).2.log := by
  simp only [proformas, hA, hB, hC]
  cases hD : stageD w L gm sC with
  | mk res s' => cases res <;> rfl

/-- C10: in a run whose stages A, B and C succeed and whose stage D runs to its end, stage D
works with the map `subjectGradeMap` that stage B returned: that map is the correlation of
the captured ratings with the subject list of proforma 1; every stage D submission carries
the entry of that map at the online subject's value, or "A" when there is none; an entry
exists only at the value of a proforma 1 subject whose label overlaps the course label of a
rated instructor, so with an empty proforma 1 dropdown the map has no entry at all. -/
theorem stageD_rating_from_stageB_map (w : World) (L : Strings) (fuel : Nat) (s : Session)
    (customGrades teacherCourseMap : GoMap) (sA : Session) (subjectGradeMap : GoMap)
    (sB sC : Session)
    (hperm : (w.rangeOrder customGrades).Perm customGrades)
    (hA : stageA w L fuel s = (.ok (customGrades, teacherCourseMap), sA))
    (hB : stageB w L customGrades teacherCourseMap sA = (.ok subjectGradeMap, sB))
    (hC : stageC w L customGrades sB = (.ok (), sC))
    (hD : (stageD w L subjectGradeMap sC).1 = .ok ()) :
    (proformas w L fuel s).2.log = (stageD w L subjectGradeMap sC).2.log ∧
    ∃ respB respD, ∃ hfs : List (HiddenFields × HiddenFields),
      w.roundTrip sA.log (Request.get FirstPerformaURL) = some respB ∧
      w.roundTrip sC.log (Request.get OnlineLearningFeedbackURL) = some respD ∧
      subjectGradeMap =
        correlate L (w.rangeOrder customGrades) teacherCourseMap (scanSubjects L respB.doc) ∧
      hfs.length = (scanOnlineSubjects L respD.doc).length ∧
      (stageD w L subjectGradeMap sC).2.log.map (fun e => e.req) =
        sC.log.map (fun e => e.req) ++
          Request.get OnlineLearningFeedbackURL ::
            (((scanOnlineSubjects L respD.doc).zip hfs).flatMap (fun p =>
              [Request.post OnlineLearningFeedbackURL
                  (revealData "ctl00$ContentPlaceHolder1$cmb_courses" p.2.1 p.1.Value),
               Request.post OnlineLearningFeedbackURL
                  (onlineFormData p.2.2 p.1.Value
                    ((subjectGradeMap.get? p.1.Value).getD "A"))])) ∧
      (∀ v g, subjectGradeMap.get? v = some g →
        ∃ e ∈ customGrades, e.2 = g ∧ ∃ cName, teacherCourseMap.get? e.1 = some cName ∧
          ∃ sub ∈ scanSubjects L respB.doc, sub.Value = v ∧
            (Contains (L.ToLower cName) (L.ToLower sub.Name) = true ∨
              Contains (L.ToLower sub.Name) (L.ToLower cName) = true)) ∧
      (scanSubjects L respB.doc = [] → ∀ v, (subjectGradeMap.get? v).getD "A" = "A") := by
  refine ⟨proformas_log_eq_stageD w L fuel s _ _ sA _ sB sC hA hB hC, ?_⟩
  obtain ⟨respB, hfsB, hrB, hgm, _, _⟩ :=
    stageB_ok w L customGrades teacherCourseMap sA subjectGradeMap (by rw [hB])
  obtain ⟨respD, hfs, hrD, hlen, hlog⟩ := stageD_ok w L subjectGradeMap sC hD
  have hentry : ∀ v g, subjectGradeMap.get? v = some g →
      ∃ e ∈ customGrades, e.2 = g ∧ ∃ cName, teacherCourseMap.get? e.1 = some cName ∧
        ∃ sub ∈ scanSubjects L respB.doc, sub.Value = v ∧
          (Contains (L.ToLower cName) (L.ToLower sub.Name) = true ∨
            Contains (L.ToLower sub.Name) (L.ToLower cName) = true) := by
    intro v g hg
    rw [hgm] at hg
    obtain ⟨e, he, heg, hm⟩ :=
      (correlate_entry L (w.rangeOrder customGrades) teacherCourseMap
        (scanSubjects L respB.doc) v).2 g hg
    exact ⟨e, hperm.mem_iff.mp he, heg,
      (matchesValue_iff L teacherCourseMap (scanSubjects L respB.doc) e v).mp hm⟩
  refine ⟨respB, respD, hfs, hrB, hrD, hgm, hlen, ?_, hentry, ?_⟩
  · rw [hlog]
    simp [onlineRequests]
  · intro hnil v
    cases hg : subjectGradeMap.get? v with
    | none => rfl
    | some g =>
      obtain ⟨_, _, _, _, _, sub, hsub, _⟩ := hentry v g hg
      rw [hnil] at hsub
      simp at hsub

/-- Witness of `stageD_rating_from_stageB_map`: the run against the sample portal in which
the operator rates the two instructors "B" and "C". -/
theorem stageD_rating_from_stageB_map_witness :
    (proformas portal ascii 3 (Session.init operatorAfterLogin)).2.log =
      (stageD portal ascii [("s1", "B")]
        (stageC portal ascii [("t1", "B"), ("t2", "C")]
          (stageB portal ascii [("t1", "B"), ("t2", "C")]
            [("t1", "Data Structures"), ("t2", "Algebra")]
            (stageA portal ascii 3 (Session.init operatorAfterLogin)).2).2).2).2.log :=
  (stageD_rating_from_stageB_map portal ascii 3 (Session.init operatorAfterLogin)
    [("t1", "B"), ("t2", "C")] [("t1", "Data Structures"), ("t2", "Algebra")]
    (stageA portal ascii 3 (Session.init operatorAfterLogin)).2 [("s1", "B")]
    (stageB portal ascii [("t1", "B"), ("t2", "C")] [("t1", "Data Structures"), ("t2", "Algebra")]
      (stageA portal ascii 3 (Session.init operatorAfterLogin)).2).2
    (stageC portal ascii [("t1", "B"), ("t2", "C")]
      (stageB portal ascii [("t1", "B"), ("t2", "C")]
        [("t1", "Data Structures"), ("t2", "Algebra")]
        (stageA portal ascii 3 (Session.init operatorAfterLogin)).2).2).2
    (List.Perm.refl _) (by decide) (by decide) (by decide) (by decide)).1

/-! ## Invariants of the request log -/

theorem makeRequest_get_all (P : Request → Prop) (w : World) (s : Session) (urlStr : String)
    (hs : LogAll P s) (hP : P (Request.get urlStr)) :
    LogAll P (makeRequest w s "GET" urlStr none).2 := by
  intro e he
  simp only [makeRequest_get, List.mem_append, List.mem_singleton] at he
  rcases he with he | he
  · exact hs e he
  · rw [he]
    exact hP

theorem makeRequest_post_all (P : Request → Prop) (w : World) (s : Session) (urlStr : String)
    (data : GoMap) (hs : LogAll P s) (hP : P (Request.post urlStr data)) :
    LogAll P (makeRequest w s "POST" urlStr (some data)).2 := by
  intro e he
  simp only [makeRequest_post, List.mem_append, List.mem_singleton] at he
  rcases he with he | he
  · exact hs e he
  · rw [he]
    exact hP

theorem loginAttempt_all (P : Request → Prop) (w : World) (L : Strings) (u p : String)
    (s : Session) (hs : LogAll P s) (hget : P (Request.get LoginURL))
    (hpost : ∀ hf u p, P (Request.post LoginURL (loginData hf u p))) :
    LogAll P (loginAttempt w L u p s).2 := by
  have h1 := makeRequest_get_all P w s LoginURL hs hget
  unfold loginAttempt
  cases hr : makeRequest w s "GET" LoginURL none with
  | mk resp s1 =>
    rw [hr] at h1
    cases resp with
    | none => exact h1
    | some page =>
      dsimp only
      split
      · exact h1
      · have h2 := makeRequest_post_all P w { s1 with hf := getHiddenFields page.doc } LoginURL
          (loginData (getHiddenFields page.doc) u p) h1 (hpost _ _ _)
        cases hr2 : makeRequest w { s1 with hf := getHiddenFields page.doc } "POST" LoginURL
            (some (loginData (getHiddenFields page.doc) u p)) with
        | mk resp2 s2 =>
          rw [hr2] at h2
          cases resp2 <;> exact h2

theorem loginLoop_all (P : Request → Prop) (w : World) (L : Strings) (fuel : Nat)
    (s : Session) (hs : LogAll P s) (hget : P (Request.get LoginURL))
    (hpost : ∀ hf u p, P (Request.post LoginURL (loginData hf u p))) :
    LogAll P (loginLoop w L fuel s).2 := by
  induction fuel generalizing s with
  | zero => exact hs
  | succ n ih =>
    rw [loginLoop]
    have h1 := loginAttempt_all P w L (prompt L s false).1
      (prompt L (prompt L s false).2 true).1 (prompt L (prompt L s false).2 true).2 hs hget hpost
    cases hr : loginAttempt w L (prompt L s false).1 (prompt L (prompt L s false).2 true).1
        (prompt L (prompt L s false).2 true).2 with
    | mk ok s1 =>
      rw [hr] at h1
      cases ok
      · exact ih s1 h1
      · exact h1

theorem subjectLoop_all (P : Request → Prop) (w : World) (gm : GoMap) (subs : List Teacher)
    (s : Session) (hs : LogAll P s)
    (hP : ∀ hf v, P (Request.post FirstPerformaURL (subjectData hf v ((gm.get? v).getD "A")))) :
    LogAll P (subjectLoop w gm subs s).2 := by
  induction subs generalizing s with
  | nil => exact hs
  | cons sub rest ih =>
    rw [subjectLoop]
    have h1 := makeRequest_post_all P w s FirstPerformaURL
      (subjectData s.hf sub.Value ((gm.get? sub.Value).getD "A")) hs (hP _ _)
    cases hr : makeRequest w s "POST" FirstPerformaURL
        (some (subjectData s.hf sub.Value ((gm.get? sub.Value).getD "A"))) with
    | mk resp s1 =>
      rw [hr] at h1
      cases resp with
      | none => exact h1
      | some r => exact ih _ h1

theorem teacherLoop_all (P : Request → Prop) (w : World) (cg : GoMap) (ts : List Teacher)
    (s : Session) (hs : LogAll P s)
    (hreveal : ∀ hf v, P (Request.post TeacherEvaluationURL
      (revealData "ctl00$ContentPlaceHolder2$ddlTeacher" hf v)))
    (hP : ∀ hf v, P (Request.post TeacherEvaluationURL
      (teacherFormData hf v ((cg.get? v).getD "A")))) :
    LogAll P (teacherLoop w cg ts s).2 := by
  induction ts generalizing s with
  | nil => exact hs
  | cons t rest ih =>
    rw [teacherLoop]
    have h1 := makeRequest_post_all P w s TeacherEvaluationURL
      (revealData "ctl00$ContentPlaceHolder2$ddlTeacher" s.hf t.Value) hs (hreveal _ _)
    cases hr : makeRequest w s "POST" TeacherEvaluationURL
        (some (revealData "ctl00$ContentPlaceHolder2$ddlTeacher" s.hf t.Value)) with
    | mk resp s1 =>
      rw [hr] at h1
      cases resp with
      | none => exact h1
      | some r =>
        dsimp only
        have h2 := makeRequest_post_all P w { s1 with hf := getHiddenFields r.doc }
          TeacherEvaluationURL
          (teacherFormData (getHiddenFields r.doc) t.Value ((cg.get? t.Value).getD "A")) h1
          (hP _ _)
        cases hr2 : makeRequest w { s1 with hf := getHiddenFields r.doc } "POST"
            TeacherEvaluationURL
            (some (teacherFormData (getHiddenFields r.doc) t.Value
              ((cg.get? t.Value).getD "A"))) with
        | mk resp2 s2 =>
          rw [hr2] at h2
          cases resp2 with
          | none => exact h2
          | some r2 => exact ih _ h2

theorem onlineLoop_all (P : Request → Prop) (w : World) (gm : GoMap) (subs : List Teacher)
    (s : Session) (hs : LogAll P s)
    (hreveal : ∀ hf v, P (Request.post OnlineLearningFeedbackURL
      (revealData "ctl00$ContentPlaceHolder1$cmb_courses" hf v)))
    (hP : ∀ hf v, P (Request.post OnlineLearningFeedbackURL
      (onlineFormData hf v ((gm.get? v).getD "A")))) :
    LogAll P (onlineLoop w gm subs s).2 := by
  induction subs generalizing s with
  | nil => exact hs
  | cons sub rest ih =>
    rw [onlineLoop]
    have h1 := makeRequest_post_all P w s OnlineLearningFeedbackURL
      (revealData "ctl00$ContentPlaceHolder1$cmb_courses" s.hf sub.Value) hs (hreveal _ _)
    cases hr : makeRequest w s "POST" OnlineLearningFeedbackURL
        (some (revealData "ctl00$ContentPlaceHolder1$cmb_courses" s.hf sub.Value)) with
    | mk resp s1 =>
      rw [hr] at h1
      cases resp with
      | none => exact h1
      | some r =>
        dsimp only
        have h2 := makeRequest_post_all P w { s1 with hf := getHiddenFields r.doc }
          OnlineLearningFeedbackURL
          (onlineFormData (getHiddenFields r.doc) sub.Value ((gm.get? sub.Value).getD "A")) h1
          (hP _ _)
        cases hr2 : makeRequest w { s1 with hf := getHiddenFields r.doc } "POST"
            OnlineLearningFeedbackURL
            (some (onlineFormData (getHiddenFields r.doc) sub.Value
              ((gm.get? sub.Value).getD "A"))) with
        | mk resp2 s2 =>
          rw [hr2] at h2
          cases resp2 with
          | none => exact h2
          | some r2 => exact ih _ h2

/-! ## Rated question fields -/

theorem ratedKeys_eq :
    ratedKeys =
      ["ctl00$ContentPlaceHolder2$q1", "ctl00$ContentPlaceHolder2$q2",
       "ctl00$ContentPlaceHolder2$q3", "ctl00$ContentPlaceHolder2$q4",
       "ctl00$ContentPlaceHolder2$q5", "ctl00$ContentPlaceHolder2$q6",
       "ctl00$ContentPlaceHolder2$q7", "ctl00$ContentPlaceHolder2$q8",
       "ctl00$ContentPlaceHolder2$q9", "ctl00$ContentPlaceHolder2$q10",
       "ctl00$ContentPlaceHolder2$q11", "ctl00$ContentPlaceHolder2$q12",
       "ctl00$ContentPlaceHolder2$q13", "ctl00$ContentPlaceHolder2$q14",
       "ctl00$ContentPlaceHolder2$q15", "ctl00$ContentPlaceHolder2$q16",
       "ctl00$ContentPlaceHolder1$q1", "ctl00$ContentPlaceHolder1$q2",
       "ctl00$ContentPlaceHolder1$q3", "ctl00$ContentPlaceHolder1$q4",
       "ctl00$ContentPlaceHolder1$q5", "ctl00$ContentPlaceHolder1$q6",
       "ctl00$ContentPlaceHolder1$q7", "ctl00$ContentPlaceHolder1$q8",
       "ctl00$ContentPlaceHolder1$q9", "ctl00$ContentPlaceHolder1$q10",
       "ctl00$ContentPlaceHolder1$q11", "ctl00$ContentPlaceHolder1$q12",
       "ctl00$ContentPlaceHolder1$q13", "ctl00$ContentPlaceHolder1$q14",
       "ctl00$ContentPlaceHolder1$q15", "ctl00$ContentPlaceHolder1$q16"] := by
  decide

theorem allRated_get (g urlStr : String) : AllRated g (Request.get urlStr) := by
  intro kv hkv
  simp [Request.get] at hkv

theorem allRated_login (g : String) (hf : HiddenFields) (u p : String) :
    AllRated g (Request.post LoginURL (loginData hf u p)) := by
  unfold AllRated
  simp only [Request.post, Option.getD_some, loginData_eq, List.forall_mem_cons,
    List.not_mem_nil, false_imp_iff, implies_true, and_true]
  repeat' constructor
  all_goals exact fun h => absurd h (by decide)

theorem allRated_reveal_teacher (g : String) (hf : HiddenFields) (v : String) :
    AllRated g (Request.post TeacherEvaluationURL
      (revealData "ctl00$ContentPlaceHolder2$ddlTeacher" hf v)) := by
  unfold AllRated
  simp only [Request.post, Option.getD_some, revealData_teacher_eq, List.forall_mem_cons,
    List.not_mem_nil, false_imp_iff, implies_true, and_true]
  repeat' constructor
  all_goals exact fun h => absurd h (by decide)

theorem allRated_reveal_online (g : String) (hf : HiddenFields) (v : String) :
    AllRated g (Request.post OnlineLearningFeedbackURL
      (revealData "ctl00$ContentPlaceHolder1$cmb_courses" hf v)) := by
  unfold AllRated
  simp only [Request.post, Option.getD_some, revealData_online_eq, List.forall_mem_cons,
    List.not_mem_nil, false_imp_iff, implies_true, and_true]
  repeat' constructor
  all_goals exact fun h => absurd h (by decide)

theorem allRated_subjectData (g : String) (hf : HiddenFields) (v : String) :
    AllRated g (Request.post FirstPerformaURL (subjectData hf v g)) := by
  unfold AllRated
  simp only [Request.post, Option.getD_some, subjectData_eq, List.forall_mem_cons,
    List.not_mem_nil, false_imp_iff, implies_true, and_true]
  repeat' constructor
  all_goals exact fun h => absurd h (by decide)

theorem allRated_teacherFormData (g : String) (hf : HiddenFields) (v : String) :
    AllRated g (Request.post TeacherEvaluationURL (teacherFormData hf v g)) := by
  unfold AllRated
  simp only [Request.post, Option.getD_some, teacherFormData_eq, List.forall_mem_cons,
    List.not_mem_nil, false_imp_iff, implies_true, and_true]
  repeat' constructor
  all_goals exact fun h => absurd h (by decide)

theorem allRated_onlineFormData (g : String) (hf : HiddenFields) (v : String) :
    AllRated g (Request.post OnlineLearningFeedbackURL (onlineFormData hf v g)) := by
  unfold AllRated
  simp only [Request.post, Option.getD_some, onlineFormData_eq, List.forall_mem_cons,
    List.not_mem_nil, false_imp_iff, implies_true, and_true]
  repeat' constructor
  all_goals exact fun h => absurd h (by decide)

/-! ## Custom grades declined -/

theorem correlate_nil (L : Strings) (teacherCourseMap : GoMap) (subjects : List Teacher) :
    correlate L [] teacherCourseMap subjects = [] :=
  rfl

theorem stageB_all_declined (w : World) (L : Strings) (tcm : GoMap) (s : Session)
    (hperm : ∀ m, (w.rangeOrder m).Perm m) (hs : LogAll (AllRated "A") s) :
    LogAll (AllRated "A") (stageB w L [] tcm s).2 ∧
      ∀ gm, (stageB w L [] tcm s).1 = .ok gm → gm = [] := by
  have hnil : w.rangeOrder [] = [] := List.Perm.eq_nil (hperm [])
  have h1 := makeRequest_get_all (AllRated "A") w s FirstPerformaURL hs (allRated_get _ _)
  unfold stageB
  cases hr : makeRequest w s "GET" FirstPerformaURL none with
  | mk resp s1 =>
    rw [hr] at h1
    cases resp with
    | none => exact ⟨h1, fun gm h => by simp at h⟩
    | some r =>
      simp only [hnil, correlate_nil]
      split
      · exact ⟨h1, fun gm h => by simpa using h.symm⟩
      · have h2 := subjectLoop_all (AllRated "A") w [] (scanSubjects L r.doc)
          { s1 with hf := getHiddenFields r.doc } h1
          (fun hf v => allRated_subjectData "A" hf v)
        cases hl : subjectLoop w [] (scanSubjects L r.doc)
            { s1 with hf := getHiddenFields r.doc } with
        | mk res s2 =>
          rw [hl] at h2
          cases res with
          | error e => exact ⟨h2, fun gm h => by simp at h⟩
          | ok u => exact ⟨h2, fun gm h => by simpa using h.symm⟩

theorem stageC_all_declined (w : World) (L : Strings) (s : Session)
    (hs : LogAll (AllRated "A") s) : LogAll (AllRated "A") (stageC w L [] s).2 := by
  have h1 := makeRequest_get_all (AllRated "A") w s TeacherEvaluationURL hs (allRated_get _ _)
  unfold stageC
  cases hr : makeRequest w s "GET" TeacherEvaluationURL none with
  | mk resp s1 =>
    rw [hr] at h1
    cases resp with
    | none => exact h1
    | some r =>
      dsimp only
      split
      · exact h1
      · exact teacherLoop_all (AllRated "A") w [] _ _ h1
          (fun hf v => allRated_reveal_teacher "A" hf v)
          (fun hf v => allRated_teacherFormData "A" hf v)

theorem stageD_all_declined (w : World) (L : Strings) (s : Session)
    (hs : LogAll (AllRated "A") s) : LogAll (AllRated "A") (stageD w L [] s).2 := by
  have h1 := makeRequest_get_all (AllRated "A") w s OnlineLearningFeedbackURL hs
    (allRated_get _ _)
  unfold stageD
  cases hr : makeRequest w s "GET" OnlineLearningFeedbackURL none with
  | mk resp s1 =>
    rw [hr] at h1
    cases resp with
    | none => exact h1
    | some r =>
      dsimp only
      split
      · exact h1
      · exact onlineLoop_all (AllRated "A") w [] _ _ h1
          (fun hf v => allRated_reveal_online "A" hf v)
          (fun hf v => allRated_onlineFormData "A" hf v)

theorem stageA_declined (w : World) (L : Strings) (fuel : Nat) (s : Session)
    (hdecl : L.ToLower (prompt L s false).1 ≠ "y") (hs : LogAll (AllRated "A") s) :
    LogAll (AllRated "A") (stageA w L fuel s).2 ∧
      ∀ cg tcm, (stageA w L fuel s).1 = .ok (cg, tcm) → cg = [] := by
  have h1 := makeRequest_get_all (AllRated "A") w s TeacherEvaluationURL hs (allRated_get _ _)
  have hdecl' : ¬ L.ToLower (L.TrimSpace (s.stdin.headD "")) = "y" := by
    simpa [prompt] using hdecl
  simp only [stageA, makeRequest_get] at h1 ⊢
  cases hr : w.roundTrip s.log (Request.get TeacherEvaluationURL) with
  | none =>
    rw [hr] at h1
    exact ⟨h1, fun cg tcm h => by simp at h⟩
  | some r =>
    rw [hr] at h1
    simp only [prompt, Bool.false_eq_true, if_false, hdecl']
    refine ⟨h1, fun cg tcm h => ?_⟩
    simp only [Except.ok.injEq, Prod.mk.injEq] at h
    exact h.1.symm

theorem proformas_all_declined (w : World) (L : Strings) (fuel : Nat) (s : Session)
    (hperm : ∀ m, (w.rangeOrder m).Perm m)
    (hdecl : L.ToLower (prompt L s false).1 ≠ "y") (hs : LogAll (AllRated "A") s) :
    LogAll (AllRated "A") (proformas w L fuel s).2 := by
  obtain ⟨hA, hcg⟩ := stageA_declined w L fuel s hdecl hs
  unfold proformas
  cases hrA : stageA w L fuel s with
  | mk resA sA =>
    rw [hrA] at hA hcg
    cases resA with
    | error e => exact hA
    | ok val =>
      obtain ⟨cg, tcm⟩ := val
      have hnil : cg = [] := hcg cg tcm rfl
      subst hnil
      dsimp only
      obtain ⟨hB, hgm⟩ := stageB_all_declined w L tcm sA hperm hA
      cases hrB : stageB w L [] tcm sA with
      | mk resB sB =>
        rw [hrB] at hB hgm
        cases resB with
        | error e => exact hB
        | ok gm =>
          have hg : gm = [] := hgm gm rfl
          subst hg
          dsimp only
          have hC := stageC_all_declined w L sB hB
          cases hrC : stageC w L [] sB with
          | mk resC sC =>
            rw [hrC] at hC
            cases resC with
            | error e => exact hC
            | ok u =>
              dsimp only
              have hD := stageD_all_declined w L sC hC
              cases hrD : stageD w L [] sC with
              | mk resD sD =>
                rw [hrD] at hD
                cases resD with
                | error e => exact hD
                | ok u => exact hD

/-- C9: in a run in which the answer to the custom-grade question, lower-cased, is not "y",
every rated question field (q1..q16 under either placeholder) of every request sent, and so
of every submission of proformas 1, 10 and 10a, is set to "A", whatever the server answers. -/
theorem declined_run_rates_A (w : World) (L : Strings) (fuel : Nat) (stdin : List String)
    (hperm : ∀ m, (w.rangeOrder m).Perm m)
    (hdecl : ∀ s, loginLoop w L fuel (Session.init stdin) = (true, s) →
      L.ToLower (prompt L s false).1 ≠ "y") :
    ∀ e ∈ (main w L fuel stdin).2.log, ∀ kv ∈ e.req.data.getD [],
      kv.1 ∈ ratedKeys → kv.2 = "A" := by
  have h0 : LogAll (AllRated "A") (Session.init stdin) := by
    intro e he
    simp [Session.init] at he
  have hL := loginLoop_all (AllRated "A") w L fuel (Session.init stdin) h0 (allRated_get _ _)
    (fun hf u p => allRated_login "A" hf u p)
  have hmain : LogAll (AllRated "A") (main w L fuel stdin).2 := by
    unfold main
    cases hr : loginLoop w L fuel (Session.init stdin) with
    | mk ok s =>
      rw [hr] at hL
      cases ok with
      | false => exact hL
      | true => exact proformas_all_declined w L fuel s hperm (hdecl s hr) hL
  exact hmain

/-- Witness of `declined_run_rates_A`: the operator logs into the sample portal and answers
"n". -/
theorem declined_run_rates_A_witness :
    (main portal ascii 1 operatorDeclines).2.log.all (fun e =>
      (e.req.data.getD []).all (fun kv => decide (kv.1 ∈ ratedKeys → kv.2 = "A"))) = true := by
  simp only [List.all_eq_true, decide_eq_true_eq]
  exact declined_run_rates_A portal ascii 1 operatorDeclines (fun m => List.Perm.refl m)
    (by
      intro s hs
      have h2 : loginLoop portal ascii 1 (Session.init operatorDeclines) =
          (true, (loginLoop portal ascii 1 (Session.init operatorDeclines)).2) := by decide
      rw [h2] at hs
      have h3 : s = (loginLoop portal ascii 1 (Session.init operatorDeclines)).2 :=
        (Prod.mk.inj hs).2.symm
      rw [h3]
      decide)

/-! ## The stages end when the server answers -/

theorem subjectLoop_total (w : World) (gm : GoMap) (subs : List Teacher) (s : Session)
    (hw : ∀ log req, (w.roundTrip log req).isSome = true) :
    (subjectLoop w gm subs s).1 = .ok () := by
  induction subs generalizing s with
  | nil => rfl
  | cons sub rest ih =>
    simp only [subjectLoop, makeRequest_post]
    cases hr : w.roundTrip s.log
        (Request.post FirstPerformaURL (subjectData s.hf sub.Value ((gm.get? sub.Value).getD "A"))) with
    | none =>
      have := hw s.log
        (Request.post FirstPerformaURL (subjectData s.hf sub.Value ((gm.get? sub.Value).getD "A")))
      simp [hr] at this
    | some r => exact ih _

theorem teacherLoop_total (w : World) (cg : GoMap) (ts : List Teacher) (s : Session)
    (hw : ∀ log req, (w.roundTrip log req).isSome = true) :
    (teacherLoop w cg ts s).1 = .ok () := by
  induction ts generalizing s with
  | nil => rfl
  | cons t rest ih =>
    simp only [teacherLoop, makeRequest_post]
    cases hr : w.roundTrip s.log (Request.post TeacherEvaluationURL
        (revealData "ctl00$ContentPlaceHolder2$ddlTeacher" s.hf t.Value)) with
    | none =>
      have := hw s.log (Request.post TeacherEvaluationURL
        (revealData "ctl00$ContentPlaceHolder2$ddlTeacher" s.hf t.Value))
      simp [hr] at this
    | some r =>
      dsimp only
      cases hr2 : w.roundTrip (s.log ++ [⟨Request.post TeacherEvaluationURL
          (revealData "ctl00$ContentPlaceHolder2$ddlTeacher" s.hf t.Value), some r⟩])
          (Request.post TeacherEvaluationURL
            (teacherFormData (getHiddenFields r.doc) t.Value ((cg.get? t.Value).getD "A"))) with
      | none =>
        have := hw (s.log ++ [⟨Request.post TeacherEvaluationURL
          (revealData "ctl00$ContentPlaceHolder2$ddlTeacher" s.hf t.Value), some r⟩])
          (Request.post TeacherEvaluationURL
            (teacherFormData (getHiddenFields r.doc) t.Value ((cg.get? t.Value).getD "A")))
        simp [hr2] at this
      | some r2 => exact ih _

theorem onlineLoop_total (w : World) (gm : GoMap) (subs : List Teacher) (s : Session)
    (hw : ∀ log req, (w.roundTrip log req).isSome = true) :
    (onlineLoop w gm subs s).1 = .ok () := by
  induction subs generalizing s with
  | nil => rfl
  | cons sub rest ih =>
    simp only [onlineLoop, makeRequest_post]
    cases hr : w.roundTrip s.log (Request.post OnlineLearningFeedbackURL
        (revealData "ctl00$ContentPlaceHolder1$cmb_courses" s.hf sub.Value)) with
    | none =>
      have := hw s.log (Request.post OnlineLearningFeedbackURL
        (revealData "ctl00$ContentPlaceHolder1$cmb_courses" s.hf sub.Value))
      simp [hr] at this
    | some r =>
      dsimp only
      cases hr2 : w.roundTrip (s.log ++ [⟨Request.post OnlineLearningFeedbackURL
          (revealData "ctl00$ContentPlaceHolder1$cmb_courses" s.hf sub.Value), some r⟩])
          (Request.post OnlineLearningFeedbackURL
            (onlineFormData (getHiddenFields r.doc) sub.Value ((gm.get? sub.Value).getD "A"))) with
      | none =>
        have := hw (s.log ++ [⟨Request.post OnlineLearningFeedbackURL
          (revealData "ctl00$ContentPlaceHolder1$cmb_courses" s.hf sub.Value), some r⟩])
          (Request.post OnlineLearningFeedbackURL
            (onlineFormData (getHiddenFields r.doc) sub.Value ((gm.get? sub.Value).getD "A")))
        simp [hr2] at this
      | some r2 => exact ih _

/-- Against a server that answers every request, proformas 1, 10 and 10a run to their end. -/
theorem stages_total (w : World) (L : Strings) (cg tcm gm : GoMap) (s : Session)
    (hw : ∀ log req, (w.roundTrip log req).isSome = true) :
    (∃ m, (stageB w L cg tcm s).1 = .ok m) ∧ (stageC w L cg s).1 = .ok () ∧
      (stageD w L gm s).1 = .ok () := by
  refine ⟨?_, ?_, ?_⟩
  · simp only [stageB, makeRequest_get]
    cases hr : w.roundTrip s.log (Request.get FirstPerformaURL) with
    | none =>
      have := hw s.log (Request.get FirstPerformaURL)
      simp [hr] at this
    | some r =>
      dsimp only
      split
      · exact ⟨_, rfl⟩
      · have h := subjectLoop_total w
          (correlate L (w.rangeOrder cg) tcm (scanSubjects L r.doc)) (scanSubjects L r.doc)
          { log := s.log ++ [⟨Request.get FirstPerformaURL, some r⟩], stdin := s.stdin,
            hf := getHiddenFields r.doc } hw
        cases hl : subjectLoop w
            (correlate L (w.rangeOrder cg) tcm (scanSubjects L r.doc)) (scanSubjects L r.doc)
            { log := s.log ++ [⟨Request.get FirstPerformaURL, some r⟩], stdin := s.stdin,
              hf := getHiddenFields r.doc } with
        | mk res s2 =>
          rw [hl] at h
          cases res with
          | error e => simp at h
          | ok u => exact ⟨_, rfl⟩
  · simp only [stageC, makeRequest_get]
    cases hr : w.roundTrip s.log (Request.get TeacherEvaluationURL) with
    | none =>
      have := hw s.log (Request.get TeacherEvaluationURL)
      simp [hr] at this
    | some r =>
      dsimp only
      split
      · rfl
      · exact teacherLoop_total w cg _ _ hw
  · simp only [stageD, makeRequest_get]
    cases hr : w.roundTrip s.log (Request.get OnlineLearningFeedbackURL) with
    | none =>
      have := hw s.log (Request.get OnlineLearningFeedbackURL)
      simp [hr] at this
    | some r =>
      dsimp only
      split
      · rfl
      · exact onlineLoop_total w gm _ _ hw

/-! ## The captured rating in proforma 10 -/

theorem gradePrompt_entered (L : Strings) (fuel : Nat) (s : Session) (g : String)
    (s' : Session) (h : gradePrompt L fuel s = (some g, s')) :
    enteredGrade L s.stdin = some (g, s'.stdin) := by
  induction fuel generalizing s with
  | zero => simp [gradePrompt] at h
  | succ n ih =>
    simp only [gradePrompt, prompt, Bool.false_eq_true, if_false] at h
    cases hs : s.stdin with
    | nil =>
      rw [hs] at h
      simp only [List.headD_nil, List.tail_nil] at h
      split at h
      · rename_i hv
        simp only [Prod.mk.injEq, Option.some.injEq] at h
        obtain ⟨hg, hs'⟩ := h
        subst hs'
        rw [enteredGrade, if_pos hv, hg]
      · have := ih _ h
        simpa using this
    | cons x rest =>
      rw [hs] at h
      simp only [List.headD_cons, List.tail_cons] at h
      split at h
      · rename_i hv
        simp only [Prod.mk.injEq, Option.some.injEq] at h
        obtain ⟨hg, hs'⟩ := h
        subst hs'
        rw [enteredGrade, if_pos hv, hg]
      · rename_i hv
        have := ih _ h
        rw [enteredGrade, if_neg hv]
        simpa using this

theorem captureLoop_entered (w : World) (L : Strings) (fuel : Nat) (ts : List Teacher)
    (cg tcm : GoMap) (s : Session) (captured : List Teacher) (cg' tcm' : GoMap)
    (h : (captureLoop w L fuel ts cg tcm s).1 = .ok (captured, cg', tcm')) :
    enteredGrades L ts s.stdin = some (captured.map (fun t => (t.Value, t.Grade))) := by
  induction ts generalizing cg tcm s captured cg' tcm' with
  | nil =>
    simp only [captureLoop, Except.ok.injEq, Prod.mk.injEq] at h
    obtain ⟨h1, _, _⟩ := h
    subst h1
    rfl
  | cons t rest ih =>
    simp only [captureLoop, makeRequest_post] at h
    cases hr : w.roundTrip s.log (Request.post TeacherEvaluationURL
        (revealData "ctl00$ContentPlaceHolder2$ddlTeacher" s.hf t.Value)) with
    | none => simp [hr] at h
    | some r =>
      simp only [hr] at h
      cases hg : gradePrompt L fuel
          { log := s.log ++ [⟨Request.post TeacherEvaluationURL
              (revealData "ctl00$ContentPlaceHolder2$ddlTeacher" s.hf t.Value), some r⟩],
            stdin := s.stdin, hf := getHiddenFields r.doc } with
      | mk og s2 =>
        cases og with
        | none => simp [hg] at h
        | some grade =>
          simp only [hg] at h
          have hent := gradePrompt_entered L fuel _ grade s2 hg
          cases hrec : captureLoop w L fuel rest (cg.Set t.Value grade)
              (tcm.Set t.Value (scrapeCourse L r.doc)) s2 with
          | mk res s3 =>
            cases res with
            | error e => simp [hrec] at h
            | ok val =>
              obtain ⟨ts', cg2, tcm2⟩ := val
              simp only [hrec, Except.ok.injEq, Prod.mk.injEq] at h
              obtain ⟨h1, _, _⟩ := h
              subst h1
              have ihr := ih (cg.Set t.Value grade) (tcm.Set t.Value (scrapeCourse L r.doc)) s2
                ts' cg2 tcm2 (by rw [hrec])
              simp only at hent
              simp [enteredGrades, hent, ihr]

theorem find?_pairs (l : List Teacher) (v : String) :
    ((l.map (fun t => (t.Value, t.Grade))).find? (fun p => p.1 = v)).map (fun p => p.2) =
      (l.find? (fun t => t.Value = v)).map (fun t => t.Grade) := by
  induction l with
  | nil => rfl
  | cons t rest ih =>
    by_cases hv : t.Value = v
    · simp [hv]
    · simpa [hv] using ih

theorem lastGrade_eq_lastEntered (captured : List Teacher) (v : String) :
    lastGrade captured v = lastEntered (captured.map (fun t => (t.Value, t.Grade))) v := by
  unfold lastGrade lastEntered
  rw [← List.map_reverse, find?_pairs]

theorem stageA_entered (w : World) (L : Strings) (fuel : Nat) (s : Session) (cg tcm : GoMap)
    (h : (stageA w L fuel s).1 = .ok (cg, tcm)) :
    ∃ respA pairs, w.roundTrip s.log (Request.get TeacherEvaluationURL) = some respA ∧
      (if L.ToLower (L.TrimSpace (s.stdin.headD "")) = "y" then
          enteredGrades L (scanTeacherList L respA.doc) s.stdin.tail
        else some []) = some pairs ∧
      ∀ v, cg.get? v = lastEntered pairs v := by
  simp only [stageA, makeRequest_get, prompt, Bool.false_eq_true, if_false] at h
  cases hr : w.roundTrip s.log (Request.get TeacherEvaluationURL) with
  | none => simp [hr] at h
  | some respA =>
    simp only [hr] at h
    by_cases hy : L.ToLower (L.TrimSpace (s.stdin.headD "")) = "y"
    · simp only [hy, if_true] at h ⊢
      cases hcl : captureLoop w L fuel (scanTeacherList L respA.doc) [] []
          { log := s.log ++ [⟨Request.get TeacherEvaluationURL, some respA⟩],
            stdin := s.stdin.tail, hf := getHiddenFields respA.doc } with
      | mk res s' =>
        cases res with
        | error e => simp [hcl] at h
        | ok val =>
          obtain ⟨captured, cg2, tcm2⟩ := val
          simp only [hcl, Except.ok.injEq, Prod.mk.injEq] at h
          obtain ⟨h1, h2⟩ := h
          subst h1 h2
          have hent := captureLoop_entered w L fuel _ [] [] _ captured cg2 tcm2 (by rw [hcl])
          obtain ⟨_, _, hv⟩ := captureLoop_ok w L fuel _ [] [] _ captured cg2 tcm2 (by rw [hcl])
          refine ⟨respA, captured.map (fun t => (t.Value, t.Grade)), rfl, hent, ?_⟩
          intro v
          rw [hv v, ← lastGrade_eq_lastEntered]
          cases lastGrade captured v <;> simp [GoMap.get?]
    · simp only [hy, if_false, Except.ok.injEq, Prod.mk.injEq] at h ⊢
      obtain ⟨h1, _⟩ := h
      subst h1
      exact ⟨respA, [], rfl, rfl, fun v => rfl⟩

theorem stageC_ok (w : World) (L : Strings) (cg : GoMap) (s : Session)
    (hok : (stageC w L cg s).1 = .ok ()) :
    ∃ resp, ∃ hfs : List (HiddenFields × HiddenFields),
      w.roundTrip s.log (Request.get TeacherEvaluationURL) = some resp ∧
      hfs.length = (scanSubmissionTeachers L resp.doc).length ∧
      (stageC w L cg s).2.log.map (fun e => e.req) =
        s.log.map (fun e => e.req) ++
          Request.get TeacherEvaluationURL ::
            teacherRequests cg (scanSubmissionTeachers L resp.doc) hfs := by
  simp only [stageC, makeRequest_get] at hok ⊢
  cases hr : w.roundTrip s.log (Request.get TeacherEvaluationURL) with
  | none => simp [hr] at hok
  | some resp =>
    simp only [hr] at hok ⊢
    by_cases hz : (scanSubmissionTeachers L resp.doc).length = 0
    · simp only [hz, if_true] at hok ⊢
      have hnil : scanSubmissionTeachers L resp.doc = [] := List.length_eq_zero.mp hz
      exact ⟨resp, [], rfl, by simp [hnil], by simp [hnil, teacherRequests]⟩
    · simp only [hz, if_false] at hok ⊢
      obtain ⟨hfs, hlen, hlog⟩ := teacherLoop_ok w _ _ _ hok
      refine ⟨resp, hfs, rfl, hlen, ?_⟩
      rw [hlog]
      simp

theorem onlineLoop_extends (w : World) (gm : GoMap) (subs : List Teacher) (s : Session) :
    ∃ l, (onlineLoop w gm subs s).2.log = s.log ++ l := by
  induction subs generalizing s with
  | nil => exact ⟨[], by simp [onlineLoop]⟩
  | cons sub rest ih =>
    simp only [onlineLoop, makeRequest_post]
    cases w.roundTrip s.log (Request.post OnlineLearningFeedbackURL
        (revealData "ctl00$ContentPlaceHolder1$cmb_courses" s.hf sub.Value)) with
    | none => exact ⟨_, rfl⟩
    | some r =>
      dsimp only
      cases w.roundTrip (s.log ++ [⟨Request.post OnlineLearningFeedbackURL
          (revealData "ctl00$ContentPlaceHolder1$cmb_courses" s.hf sub.Value), some r⟩])
          (Request.post OnlineLearningFeedbackURL
            (onlineFormData (getHiddenFields r.doc) sub.Value ((gm.get? sub.Value).getD "A"))) with
      | none =>
        refine ⟨[⟨Request.post OnlineLearningFeedbackURL
            (revealData "ctl00$ContentPlaceHolder1$cmb_courses" s.hf sub.Value), some r⟩,
          ⟨Request.post OnlineLearningFeedbackURL
            (onlineFormData (getHiddenFields r.doc) sub.Value ((gm.get? sub.Value).getD "A")),
            none⟩], ?_⟩
        simp
      | some r2 =>
        obtain ⟨l, hl⟩ := ih
          { log := s.log ++ [⟨Request.post OnlineLearningFeedbackURL
                (revealData "ctl00$ContentPlaceHolder1$cmb_courses" s.hf sub.Value), some r⟩] ++
              [⟨Request.post OnlineLearningFeedbackURL
                (onlineFormData (getHiddenFields r.doc) sub.Value
                  ((gm.get? sub.Value).getD "A")), some r2⟩],
            stdin := s.stdin, hf := getHiddenFields r.doc }
        refine ⟨[⟨Request.post OnlineLearningFeedbackURL
            (revealData "ctl00$ContentPlaceHolder1$cmb_courses" s.hf sub.Value), some r⟩,
          ⟨Request.post OnlineLearningFeedbackURL
            (onlineFormData (getHiddenFields r.doc) sub.Value ((gm.get? sub.Value).getD "A")),
            some r2⟩] ++ l, ?_⟩
        rw [hl]
        simp

theorem stageD_extends (w : World) (L : Strings) (gm : GoMap) (s : Session) :
    ∃ l, (stageD w L gm s).2.log = s.log ++ l := by
  simp only [stageD, makeRequest_get]
  cases w.roundTrip s.log (Request.get OnlineLearningFeedbackURL) with
  | none => exact ⟨_, rfl⟩
  | some r =>
    dsimp only
    split
    · exact ⟨_, rfl⟩
    · obtain ⟨l, hl⟩ := onlineLoop_extends w gm (scanOnlineSubjects L r.doc)
        { log := s.log ++ [⟨Request.get OnlineLearningFeedbackURL, some r⟩], stdin := s.stdin,
          hf := getHiddenFields r.doc }
      refine ⟨[⟨Request.get OnlineLearningFeedbackURL, some r⟩] ++ l, ?_⟩
      rw [hl]
      simp

/-- C8 (as stated, refuted): two instructors of the dropdown share the value "v"; the
operator enters "b" for the first, Dr. Ali, and "c" for the second; both submissions of
proforma 10, the one for Dr. Ali included, carry the rating "C". -/
theorem shared_value_submits_other_rating :
    (portalSharedValue.roundTrip [] (Request.get TeacherEvaluationURL)).map
        (fun r => (scanTeacherList ascii r.doc).map (fun t => (t.Value, t.Name))) =
      some [("v", "Dr. Ali"), ("v", "Dr. Bo")] ∧
    enteredGrades ascii [⟨"v", "Dr. Ali", "...", "-"⟩, ⟨"v", "Dr. Bo", "...", "-"⟩] ["b", "c"] =
      some [("v", "B"), ("v", "C")] ∧
    ((main portalSharedValue ascii 3 operatorRatesBC).2.log.filter
        (fun e => decide (e.req.url = TeacherEvaluationURL) &&
          ((e.req.data.getD []).get? "ctl00$ContentPlaceHolder2$btnSave").isSome)).map
        (fun e => ((e.req.data.getD []).get? "ctl00$ContentPlaceHolder2$ddlTeacher",
          (e.req.data.getD []).get? "ctl00$ContentPlaceHolder2$q1",
          (e.req.data.getD []).get? "ctl00$ContentPlaceHolder2$q16")) =
      [(some "v", some "C", some "C"), (some "v", some "C", some "C")] := by
  decide

/-- C8 (amended): in a run whose stages A and B succeed and whose stage C runs to its end,
the requests of the run continue, after those of stage B, with the fetch of proforma 10 and
then, for each re-scanned instructor in list order, the reveal POST and a submission that
carries the instructor's value, the sixteen question fields q1..q16 all set to one rating,
the comment fields q20 and q21 and the save trigger.  The rating is the grade the operator
entered during the capture for the last captured instructor whose value is this
instructor's value (the first entry after that instructor's prompt that, trimmed and
upper-cased, is A, B, C or D), and "A" when no rating was captured for that value (capture
declined, or no captured instructor with that value). -/
theorem stageC_submits_entered_rating (w : World) (L : Strings) (fuel : Nat) (s : Session)
    (customGrades teacherCourseMap : GoMap) (sA : Session) (subjectGradeMap : GoMap)
    (sB : Session)
    (hA : stageA w L fuel s = (.ok (customGrades, teacherCourseMap), sA))
    (hB : stageB w L customGrades teacherCourseMap sA = (.ok subjectGradeMap, sB))
    (hC : (stageC w L customGrades sB).1 = .ok ()) :
    (∃ respA pairs respC, ∃ hfs : List (HiddenFields × HiddenFields), ∃ later,
      w.roundTrip s.log (Request.get TeacherEvaluationURL) = some respA ∧
      (if L.ToLower (L.TrimSpace (s.stdin.headD "")) = "y" then
          enteredGrades L (scanTeacherList L respA.doc) s.stdin.tail
        else some []) = some pairs ∧
      w.roundTrip sB.log (Request.get TeacherEvaluationURL) = some respC ∧
      hfs.length = (scanSubmissionTeachers L respC.doc).length ∧
      (proformas w L fuel s).2.log.map (fun e => e.req) =
        (sB.log.map (fun e => e.req) ++
          Request.get TeacherEvaluationURL ::
            (((scanSubmissionTeachers L respC.doc).zip hfs).flatMap (fun p =>
              [Request.post TeacherEvaluationURL
                  (revealData "ctl00$ContentPlaceHolder2$ddlTeacher" p.2.1 p.1.Value),
               Request.post TeacherEvaluationURL
                  (teacherFormData p.2.2 p.1.Value
                    ((lastEntered pairs p.1.Value).getD "A"))]))) ++ later) ∧
    ∀ hf value grade, teacherFormData hf value grade =
      [("__VIEWSTATE", hf.ViewState),
       ("__VIEWSTATEGENERATOR", hf.ViewStateGenerator),
       ("__EVENTVALIDATION", hf.EventValidation),
       ("ctl00$ContentPlaceHolder2$ddlTeacher", value),
       ("ctl00$ContentPlaceHolder2$q1", grade), ("ctl00$ContentPlaceHolder2$q2", grade),
       ("ctl00$ContentPlaceHolder2$q3", grade), ("ctl00$ContentPlaceHolder2$q4", grade),
       ("ctl00$ContentPlaceHolder2$q5", grade), ("ctl00$ContentPlaceHolder2$q6", grade),
       ("ctl00$ContentPlaceHolder2$q7", grade), ("ctl00$ContentPlaceHolder2$q8", grade),
       ("ctl00$ContentPlaceHolder2$q9", grade), ("ctl00$ContentPlaceHolder2$q10", grade),
       ("ctl00$ContentPlaceHolder2$q11", grade), ("ctl00$ContentPlaceHolder2$q12", grade),
       ("ctl00$ContentPlaceHolder2$q13", grade), ("ctl00$ContentPlaceHolder2$q14", grade),
       ("ctl00$ContentPlaceHolder2$q15", grade), ("ctl00$ContentPlaceHolder2$q16", grade),
       ("ctl00$ContentPlaceHolder2$q20", "Good instructor"),
       ("ctl00$ContentPlaceHolder2$q21", "Good course"),
       ("ctl00$ContentPlaceHolder2$btnSave", "Save Proforma Proforma")] := by
  refine ⟨?_, teacherFormData_eq⟩
  obtain ⟨respA, pairs, hrA, hpairs, hlast⟩ :=
    stageA_entered w L fuel s customGrades teacherCourseMap (by rw [hA])
  obtain ⟨respC, hfs, hrC, hlen, hlogC⟩ := stageC_ok w L customGrades sB hC
  have hCpair : stageC w L customGrades sB = (.ok (), (stageC w L customGrades sB).2) :=
    Prod.ext hC rfl
  have hP := proformas_log_eq_stageD w L fuel s customGrades teacherCourseMap sA
    subjectGradeMap sB (stageC w L customGrades sB).2 hA hB hCpair
  obtain ⟨l, hl⟩ := stageD_extends w L subjectGradeMap (stageC w L customGrades sB).2
  refine ⟨respA, pairs, respC, hfs, l.map (fun e => e.req), hrA, hpairs, hrC, hlen, ?_⟩
  rw [hP, hl, List.map_append, hlogC]
  simp [teacherRequests, hlast]

/-- Witness of `stageC_submits_entered_rating`: after the login the operator answers "y"
and rates the two instructors of the sample portal "B" and "C"; proforma 10 is then
submitted with "B" for "t1" and "C" for "t2". -/
theorem stageC_submits_entered_rating_witness :
    ∃ respC : Response, ∃ hfs : List (HiddenFields × HiddenFields), ∃ later,
      (scanSubmissionTeachers ascii respC.doc).map (fun t => t.Value) = ["t1", "t2"] ∧
      hfs.length = (scanSubmissionTeachers ascii respC.doc).length ∧
      (proformas portal ascii 3 (Session.init operatorAfterLogin)).2.log.map (fun e => e.req) =
        ((stageB portal ascii [("t1", "B"), ("t2", "C")]
            [("t1", "Data Structures"), ("t2", "Algebra")]
            (stageA portal ascii 3 (Session.init operatorAfterLogin)).2).2.log.map
              (fun e => e.req) ++
          Request.get TeacherEvaluationURL ::
            (((scanSubmissionTeachers ascii respC.doc).zip hfs).flatMap (fun p =>
              [Request.post TeacherEvaluationURL
                  (revealData "ctl00$ContentPlaceHolder2$ddlTeacher" p.2.1 p.1.Value),
               Request.post TeacherEvaluationURL
                  (teacherFormData p.2.2 p.1.Value
                    ((lastEntered [("t1", "B"), ("t2", "C")] p.1.Value).getD "A"))]))) ++
          later := by
  obtain ⟨respA, pairs, respC, hfs, later, hrA, hpairs, hrC, hlen, hlog⟩ :=
    (stageC_submits_entered_rating portal ascii 3 (Session.init operatorAfterLogin)
      [("t1", "B"), ("t2", "C")] [("t1", "Data Structures"), ("t2", "Algebra")]
      (stageA portal ascii 3 (Session.init operatorAfterLogin)).2 [("s1", "B")]
      (stageB portal ascii [("t1", "B"), ("t2", "C")]
        [("t1", "Data Structures"), ("t2", "Algebra")]
        (stageA portal ascii 3 (Session.init operatorAfterLogin)).2).2
      (by decide) (by decide) (by decide)).1
  have hA0 : portal.roundTrip (Session.init operatorAfterLogin).log
      (Request.get TeacherEvaluationURL) =
      some ⟨"", ⟨tokens 0,
        [⟨"ctl00$ContentPlaceHolder2$ddlTeacher",
          [⟨some "0", "-- Select --"⟩, ⟨some "t1", " Dr. Ali "⟩, ⟨some "t2", "Dr. Bo"⟩]⟩],
        [⟨"ctl00_ContentPlaceHolder2_lblCourse", "Data Structures"⟩]⟩⟩ := by decide
  rw [hA0] at hrA
  have hrespA := (Option.some.inj hrA).symm
  subst hrespA
  have hp0 : (if ascii.ToLower (ascii.TrimSpace
        ((Session.init operatorAfterLogin).stdin.headD "")) = "y" then
      enteredGrades ascii (scanTeacherList ascii
        (⟨"", ⟨tokens 0,
          [⟨"ctl00$ContentPlaceHolder2$ddlTeacher",
            [⟨some "0", "-- Select --"⟩, ⟨some "t1", " Dr. Ali "⟩, ⟨some "t2", "Dr. Bo"⟩]⟩],
          [⟨"ctl00_ContentPlaceHolder2_lblCourse", "Data Structures"⟩]⟩⟩ : Response).doc)
        (Session.init operatorAfterLogin).stdin.tail
      else some []) = some [("t1", "B"), ("t2", "C")] := by decide
  rw [hp0] at hpairs
  have hpairs' := (Option.some.inj hpairs).symm
  subst hpairs'
  have hC0 : (portal.roundTrip (stageB portal ascii [("t1", "B"), ("t2", "C")]
        [("t1", "Data Structures"), ("t2", "Algebra")]
        (stageA portal ascii 3 (Session.init operatorAfterLogin)).2).2.log
      (Request.get TeacherEvaluationURL)).map
        (fun r => (scanSubmissionTeachers ascii r.doc).map (fun t => t.Value)) =
      some ["t1", "t2"] := by decide
  rw [hrC] at hC0
  exact ⟨respC, hfs, later, Option.some.inj hC0, hlen, hlog⟩

end QEC
